import Mathlib

/-!
A shallow embedding of the RenewBench-Crawler repository: the YAML/CLI
configuration loader (rbc/config/loader.py, rbc/config/schema.py) and the
three checkpoint/resume downloaders (rbc/downloaders/entsoe.py,
rbc/weather/era5/downloader.py, rbc/weather/icon_dream_global/downloader.py),
together with theorems about the orchestration loops.

Python dictionaries are embedded as association lists with first-match
lookup; in-place mutation is embedded as explicit state passing; exceptions
are embedded as Except values or as an explicit fatal flag on the loop
state; the filesystem is embedded as the list of file names present; the
network is embedded as an oracle giving the outcome of each remote call.
-/

namespace RBC

/-! ## Configuration values (rbc/config/loader.py)

A YAML / CLI configuration value: null, a string, a nested mapping, or an
opaque scalar (numbers, booleans); Python dicts become association lists. -/

inductive CVal where
  | vnull : CVal
  | vstr : String → CVal
  | vdict : List (String × CVal) → CVal
  | vnum : Int → CVal

mutual

/-- Decidable equality for configuration values (the nested inductive
prevents automatic derivation). -/
def decEqCVal : (a b : CVal) → Decidable (a = b)
  | CVal.vnull, CVal.vnull => isTrue rfl
  | CVal.vnull, CVal.vstr _ => isFalse (by simp)
  | CVal.vnull, CVal.vdict _ => isFalse (by simp)
  | CVal.vnull, CVal.vnum _ => isFalse (by simp)
  | CVal.vstr _, CVal.vnull => isFalse (by simp)
  | CVal.vstr a, CVal.vstr b =>
    if h : a = b then isTrue (by rw [h]) else isFalse (by simp [h])
  | CVal.vstr _, CVal.vdict _ => isFalse (by simp)
  | CVal.vstr _, CVal.vnum _ => isFalse (by simp)
  | CVal.vdict _, CVal.vnull => isFalse (by simp)
  | CVal.vdict _, CVal.vstr _ => isFalse (by simp)
  | CVal.vdict a, CVal.vdict b =>
    (match decEqCValList a b with
     | isTrue h => isTrue (by rw [h])
     | isFalse h => isFalse (by simp [h]))
  | CVal.vdict _, CVal.vnum _ => isFalse (by simp)
  | CVal.vnum _, CVal.vnull => isFalse (by simp)
  | CVal.vnum _, CVal.vstr _ => isFalse (by simp)
  | CVal.vnum _, CVal.vdict _ => isFalse (by simp)
  | CVal.vnum a, CVal.vnum b =>
    if h : a = b then isTrue (by rw [h]) else isFalse (by simp [h])

/-- Decidable equality for association lists of configuration values. -/
def decEqCValList : (a b : List (String × CVal)) → Decidable (a = b)
  | [], [] => isTrue rfl
  | [], _ :: _ => isFalse (by simp)
  | _ :: _, [] => isFalse (by simp)
  | (k1, v1) :: r1, (k2, v2) :: r2 =>
    if hk : k1 = k2 then
      (match decEqCVal v1 v2, decEqCValList r1 r2 with
       | isTrue hv, isTrue hr => isTrue (by rw [hk, hv, hr])
       | isFalse hv, _ => isFalse (by simp [hv])
       | _, isFalse hr => isFalse (by simp [hr]))
    else isFalse (by simp [hk])

end

instance : DecidableEq CVal := decEqCVal

instance : DecidableEq (List (String × CVal)) := decEqCValList

/-- First-match lookup in an association list, like a Python dict read. -/
def alookup {α : Type} : List (String × α) → String → Option α
  | [], _ => none
  | (k, v) :: rest, key => if k = key then some v else alookup rest key

/-- Assignment into an association list, like a Python dict write: replace
the first binding of the key, or append a new binding. -/
def setKey {α : Type} : List (String × α) → String → α → List (String × α)
  | [], key, v => [(key, v)]
  | (k, w) :: rest, key, v =>
    if k = key then (key, v) :: rest else (k, w) :: setKey rest key v

/-- Embeds Python str.lower character by character for the ASCII range
(the configuration strings compared with "none" are ASCII). -/
def lowerChar (c : Char) : Char :=
  if 65 ≤ c.toNat ∧ c.toNat ≤ 90 then Char.ofNat (c.toNat + 32) else c

/-- Embeds Python str.lower. -/
def lowerStr (s : String) : String := String.mk (s.data.map lowerChar)

/-- Embeds update_config (rbc/config/loader.py lines 60-79): iterate the
override items; a string value equal to "none" case-insensitively becomes
null; a dict value over a dict base recurses; anything else replaces the
binding outright. -/
def update_config : List (String × CVal) → List (String × CVal) → List (String × CVal)
  | base, [] => base
  | base, (k, CVal.vstr s) :: rest =>
    update_config
      (setKey base k (if lowerStr s = "none" then CVal.vnull else CVal.vstr s)) rest
  | base, (k, CVal.vdict uv) :: rest =>
    (match alookup base k with
     | some (CVal.vdict bv) =>
       update_config (setKey base k (CVal.vdict (update_config bv uv))) rest
     | _ => update_config (setKey base k (CVal.vdict uv)) rest)
  | base, (k, v) :: rest => update_config (setKey base k v) rest
termination_by _ updates => sizeOf updates
decreasing_by all_goals (simp_wf <;> omega)

/-! ## parse_key_value_pairs (rbc/config/loader.py lines 82-112) -/

/-- Errors raised by parse_key_value_pairs: invalidFormat embeds the
argparse.ArgumentTypeError raised for a pair with no "=", typeError embeds
the TypeError/AttributeError Python raises when a dotted path traverses a
previously assigned non-dict value. -/
inductive ParseErr where
  | invalidFormat : ParseErr
  | typeError : ParseErr
deriving DecidableEq

/-- Splits a character list at the first occurrence of c, like
Python str.split(sep, 1); none when c does not occur. -/
def splitFirst (c : Char) : List Char → Option (List Char × List Char)
  | [] => none
  | a :: rest =>
    if a = c then some ([], rest)
    else
      match splitFirst c rest with
      | some (l, r) => some (a :: l, r)
      | none => none

/-- Splits a character list at every occurrence of c, like Python
str.split(sep); always returns at least one (possibly empty) group. -/
def splitEvery (c : Char) : List Char → List (List Char)
  | [] => [[]]
  | a :: rest =>
    if a = c then [] :: splitEvery c rest
    else
      match splitEvery c rest with
      | [] => [[a]]
      | g :: gs => (a :: g) :: gs

/-- Walks the dotted key path, creating empty dicts along the way
(dict.setdefault), and assigns the value string at the leaf; traversing an
existing non-dict value is the Python TypeError. -/
def assignPath : List (String × CVal) → List String → String → Except ParseErr (List (String × CVal))
  | d, [], _ => Except.ok d
  | d, [k], value => Except.ok (setKey d k (CVal.vstr value))
  | d, k :: k2 :: rest, value =>
    match alookup d k with
    | some (CVal.vdict sub) =>
      (match assignPath sub (k2 :: rest) value with
       | Except.ok sub2 => Except.ok (setKey d k (CVal.vdict sub2))
       | Except.error e => Except.error e)
    | some _ => Except.error ParseErr.typeError
    | none =>
      match assignPath [] (k2 :: rest) value with
      | Except.ok sub2 => Except.ok (setKey d k (CVal.vdict sub2))
      | Except.error e => Except.error e

/-- The loop body of parse_key_value_pairs, threading the result dict. -/
def parseGo : List (String × CVal) → List String → Except ParseErr (List (String × CVal))
  | result, [] => Except.ok result
  | result, pair :: rest =>
    if pair.data.contains (Char.ofNat 61) = false then Except.error ParseErr.invalidFormat
    else
      match splitFirst (Char.ofNat 61) pair.data with
      | none => Except.error ParseErr.invalidFormat
      | some (key, value) =>
        match assignPath result ((splitEvery (Char.ofNat 46) key).map String.mk) (String.mk value) with
        | Except.ok r2 => parseGo r2 rest
        | Except.error e => Except.error e

/-- Embeds parse_key_value_pairs (rbc/config/loader.py lines 82-112):
character 61 is "=", character 46 is ".". -/
def parse_key_value_pairs (pairs : List String) : Except ParseErr (List (String × CVal)) :=
  parseGo [] pairs

/-! ## load_config (rbc/config/loader.py lines 40-57, rbc/config/schema.py) -/

/-- Errors raised by load_config: the two ValueError messages of loader.py
plus validation failure of the pydantic schema. -/
inductive LoadErr where
  | fileNotFound : LoadErr
  | unknownSource : LoadErr
  | validationError : LoadErr
deriving DecidableEq

/-- The keys of SCHEMA_REGISTRY (rbc/config/schema.py lines 113-116). -/
def SCHEMA_REGISTRY : List String := ["entsoe", "era5"]

/-- The validated configuration object; only the source field matters to
the claims, the remaining fields are abstracted. -/
structure ValidatedConfig where
  source : String
deriving DecidableEq

/-- Modelled from the spec: pydantic validation (an out-of-scope external
collaborator per spec section 1) of the per-source schema. Each schema in
rbc/config/schema.py declares source as a Literal fixed to its registry key
with that key as default, so validation succeeds only when the "source"
entry is absent (default applies) or equals the registry key; restOk
abstracts validation of the remaining fields (paths, access). -/
def model_validate (schemaSource : String) (cfg : List (String × CVal)) (restOk : Bool) :
    Except LoadErr ValidatedConfig :=
  if restOk = false then Except.error LoadErr.validationError
  else
    match alookup cfg "source" with
    | none => Except.ok { source := schemaSource }
    | some (CVal.vstr v) =>
      if v = schemaSource then Except.ok { source := v }
      else Except.error LoadErr.validationError
    | some _ => Except.error LoadErr.validationError

/-- Embeds the dict literal cfg = ("source": source) merged before the YAML
entries (loader.py line 46): a "source" key already present in the YAML
shadows the injected one. -/
def mergeSourceKey (source : String) (yaml : List (String × CVal)) : List (String × CVal) :=
  match alookup yaml "source" with
  | some _ => yaml
  | none => ("source", CVal.vstr source) :: yaml

/-- Embeds load_config (rbc/config/loader.py lines 40-57): missing file
check, source injection, override merge, registry lookup, validation.
fileExists embeds cfg_path.is_file(), yaml the parsed YAML mapping. -/
def load_config (source : String) (fileExists : Bool) (yaml : List (String × CVal))
    (overrides : Option (List (String × CVal))) (restOk : Bool) :
    Except LoadErr ValidatedConfig :=
  if fileExists = false then Except.error LoadErr.fileNotFound
  else
    let cfg := mergeSourceKey source yaml
    let cfg :=
      match overrides with
      | some o => update_config cfg o
      | none => cfg
    if SCHEMA_REGISTRY.contains source then model_validate source cfg restOk
    else Except.error LoadErr.unknownSource

/-! ## Checkpoint matrices

A checkpoint matrix is embedded as a total function from integer
coordinates to numeric cell values; the work grids only ever touch the
coordinates inside their declared shape. Two-dimensional matrices use the
third component fixed at 0. -/

/-- A two-dimensional checkpoint coordinate (ENTSO-E: year index, zone index). -/
abbrev Coord2 := Nat × Nat

/-- A three-dimensional checkpoint coordinate (year, month, level/variable). -/
abbrev Coord3 := Nat × Nat × Nat

/-- Writes one cell of a two-dimensional checkpoint matrix. -/
def mark2 (cp : Coord2 → Nat) (c : Coord2) (status : Nat) : Coord2 → Nat :=
  fun c2 => if c2 = c then status else cp c2

/-- Writes one cell of a three-dimensional checkpoint matrix. -/
def mark3 (cp : Coord3 → Nat) (c : Coord3) (status : Nat) : Coord3 → Nat :=
  fun c2 => if c2 = c then status else cp c2

/-! ## ENTSO-E downloader (rbc/downloaders/entsoe.py) -/

/-- The outcome of the ActualGenerationPerGenerationUnit API query made by
dump_to_csv, as distinguished by the code at entsoe.py lines 148-190. -/
inductive EntsoeApiResult where
  | serviceUnavailable : EntsoeApiResult
  | queryObjectReturned : EntsoeApiResult
  | emptyResult : EntsoeApiResult
  | missingColumns : EntsoeApiResult
  | records : EntsoeApiResult
deriving DecidableEq

/-- Embeds EntsoeDownloader.dump_to_csv (entsoe.py lines 134-190) as a map
from the API outcome to either the raised ValueError message or the unit
status: ServiceUnavailableError is re-raised as a ValueError; the query
object coming back means no data (status 0); an empty result is confirmed
empty (status 1); missing relevant columns is a KeyError (status 0);
otherwise the CSV is written (status 1). -/
def dump_to_csv : EntsoeApiResult → Except String Nat
  | EntsoeApiResult.serviceUnavailable =>
    Except.error "Entso-E Transparency Platform is currently unavailable!"
  | EntsoeApiResult.queryObjectReturned => Except.ok 0
  | EntsoeApiResult.emptyResult => Except.ok 1
  | EntsoeApiResult.missingColumns => Except.ok 0
  | EntsoeApiResult.records => Except.ok 1

/-- The mutable state of one dump_all_to_csv run: the in-memory checkpoint,
the checkpoint persisted in status.pickle (disk), the number of pickle
saves, the (zone, year) pairs for which dump_to_csv was invoked, and the
pending uncaught ValueError, if any. -/
structure EntsoeState where
  checkpoint : Coord2 → Nat
  disk : Coord2 → Nat
  saves : Nat
  attempts : List (String × String)
  fatal : Option String

/-- One iteration of the dump_all_to_csv loop body (entsoe.py lines
121-132) at unit ((year index, year), (zone index, zone)): skip when the
cell is nonzero, otherwise invoke dump_to_csv, store its status in the
cell and pickle the checkpoint; an uncaught ValueError halts the run. -/
def entsoeStep (oracle : String → String → EntsoeApiResult)
    (st : EntsoeState) (u : (Nat × String) × (Nat × String)) : EntsoeState :=
  match st.fatal with
  | some _ => st
  | none =>
    let idx := u.1.1
    let year := u.1.2
    let ibz := u.2.1
    let zone := u.2.2
    if st.checkpoint (idx, ibz) = 0 then
      match dump_to_csv (oracle zone year) with
      | Except.error e =>
        { st with attempts := st.attempts ++ [(zone, year)], fatal := some e }
      | Except.ok s =>
        let cp := mark2 st.checkpoint (idx, ibz) s
        { checkpoint := cp, disk := cp, saves := st.saves + 1,
          attempts := st.attempts ++ [(zone, year)], fatal := none }
    else st

/-- The unit descriptors visited by dump_all_to_csv: enumerated years
crossed with enumerated bidding zones, in declaration order. -/
def entsoeUnits (years zones : List String) : List ((Nat × String) × (Nat × String)) :=
  years.enum.flatMap fun yu => zones.enum.map fun zu => (yu, zu)

/-- Embeds EntsoeDownloader.dump_all_to_csv (entsoe.py lines 121-132). -/
def dump_all_to_csv (oracle : String → String → EntsoeApiResult)
    (years zones : List String) (st : EntsoeState) : EntsoeState :=
  (entsoeUnits years zones).foldl (entsoeStep oracle) st

/-! ## ERA5 downloader (rbc/weather/era5/downloader.py) -/

/-- The three MARS level types of Era5Downloader. -/
inductive LevelType where
  | single : LevelType
  | pressure : LevelType
  | model : LevelType
deriving DecidableEq

/-- The static configuration of an Era5Downloader. The last six fields are
the module constants of rbc/weather/era5/mappings.py; that module is
imported by the downloader but is not under src, so its concrete values
are carried as parameters (no claim depends on them). -/
structure Era5 where
  years : List Int
  months : List String
  vars : List String
  pressure_levels : Option (List String)
  model_levels : Option (List String)
  dry_run : Bool
  file_extension : String
  singleVars : List String
  pressureVars : List String
  modelVars : List String
  allPressureLevels : List String
  allModelLevels : List String
  marsParams : List (String × String)

/-- The outcome of one pass through the try block of _download_variables:
an exception while building the MARS request (raised before the dry-run
branch), a successful client.retrieve that writes the output file, or a
client.retrieve that raises; fileWritten tells whether a partly written
output file is left behind. -/
inductive Era5Outcome where
  | buildRaise : Era5Outcome
  | retrieveOk : Era5Outcome
  | retrieveRaise : (fileWritten : Bool) → Era5Outcome
deriving DecidableEq

/-- The mutable state of one Era5 download_data run: checkpoint and its
pickled copy, whether the checkpoint array is three-dimensional
(checkpoint.ndim == 3), the number of pickle saves, the number of
client.retrieve calls, and the files present in the output directory. -/
structure Era5State where
  checkpoint : Coord3 → Nat
  ndim3 : Bool
  disk : Coord3 → Nat
  saves : Nat
  retrieves : Nat
  fs : List String

/-- The variables the given level type downloads: the requested variables
filtered by membership in the corresponding mappings list
(downloader.py lines 311-325). -/
def era5VarsFor (d : Era5) : LevelType → List String
  | LevelType.single => d.vars.filter fun v => d.singleVars.contains v
  | LevelType.pressure => d.vars.filter fun v => d.pressureVars.contains v
  | LevelType.model => d.vars.filter fun v => d.modelVars.contains v

/-- The filename level tag: sl, pl or ml (downloader.py lines 311-325). -/
def levelTag : LevelType → String
  | LevelType.single => "sl"
  | LevelType.pressure => "pl"
  | LevelType.model => "ml"

/-- Embeds Python str.replace of the underscore by the empty string,
character by character (character 95 is the underscore). -/
def removeUnderscores (s : String) : String :=
  String.mk (s.data.filter fun c => c ≠ Char.ofNat 95)

/-- Embeds Era5Downloader._get_mars_param (downloader.py lines 431-443):
the VARIABLE_TO_MARS_PARAM entry, or the variable name with underscores
removed truncated to 10 characters. -/
def era5GetMarsParam (d : Era5) (v : String) : String :=
  match alookup d.marsParams v with
  | some p => p
  | none => (removeUnderscores v).take 10

/-- The filename level suffix (downloader.py lines 348-363): the level tag,
extended with the joined level list when a non-default custom list of
pressure or model levels is requested. -/
def era5LevelSuffix (d : Era5) (lt : LevelType) : String :=
  let base := "_" ++ levelTag lt
  match lt with
  | LevelType.single => base
  | LevelType.pressure =>
    (match d.pressure_levels with
     | some ls => if ls ≠ d.allPressureLevels then base ++ "_" ++ String.intercalate "-" ls else base
     | none => base)
  | LevelType.model =>
    (match d.model_levels with
     | some ls => if ls ≠ d.allModelLevels then base ++ "_" ++ String.intercalate "-" ls else base
     | none => base)

/-- The combined output filename of one (year, month, level type) unit
(downloader.py lines 365-371). -/
def era5OutputFile (d : Era5) (year : Int) (month : String) (lt : LevelType) : String :=
  let shorts := (era5VarsFor d lt).map (era5GetMarsParam d)
  let varsStr := String.intercalate "-" shorts
  let suffix := era5LevelSuffix d lt
  let ext := d.file_extension
  s!"era5_{year}_{month}{suffix}_{varsStr}.{ext}"

/-- The checkpoint cell addressed by a unit: (year, month, level index)
for a three-dimensional checkpoint, (year, month) otherwise
(downloader.py lines 335-346 and 421-424). -/
def era5Cell (ndim3 : Bool) (yi mi i : Nat) : Coord3 :=
  if ndim3 then (yi, mi, i) else (yi, mi, 0)

/-- Adds a filename to the output directory (idempotent). -/
def insertFile (fs : List String) (f : String) : List String :=
  if fs.contains f then fs else f :: fs

/-- Stores the unit status in the checkpoint cell and pickles the
checkpoint (downloader.py lines 419-429). -/
def era5MarkSave (st : Era5State) (c : Coord3) (status : Nat) : Era5State × Nat :=
  let cp := mark3 st.checkpoint c status
  ({ st with checkpoint := cp, disk := cp, saves := st.saves + 1 }, status)

/-- Embeds Era5Downloader._download_variables (downloader.py lines
293-429): empty variable list for the level type returns 1 untouched; a
nonzero checkpoint cell is skipped; otherwise the MARS request is built
(which may raise), a dry run prints and returns 1 without updating the
checkpoint, and a real run calls client.retrieve and stores status 1 on
success or 0 on any exception, pickling the checkpoint either way. -/
def era5DownloadVariables (d : Era5) (oracle : Int × String × LevelType → Era5Outcome)
    (st : Era5State) (year : Int) (month : String) (lt : LevelType) (cpIdx : Nat) :
    Era5State × Nat :=
  let vars := era5VarsFor d lt
  if vars.isEmpty then (st, 1)
  else
    let yi := d.years.indexOf year
    let mi := d.months.indexOf month
    let c := era5Cell st.ndim3 yi mi cpIdx
    if st.checkpoint c ≠ 0 then (st, 1)
    else
      let out := era5OutputFile d year month lt
      match oracle (year, month, lt) with
      | Era5Outcome.buildRaise => era5MarkSave st c 0
      | Era5Outcome.retrieveOk =>
        if d.dry_run then (st, 1)
        else
          let fs2 := insertFile st.fs out
          let st2 := { st with retrieves := st.retrieves + 1, fs := fs2 }
          era5MarkSave st2 c 1
      | Era5Outcome.retrieveRaise fileWritten =>
        if d.dry_run then (st, 1)
        else
          let fs2 := if fileWritten then insertFile st.fs out else st.fs
          let st2 := { st with retrieves := st.retrieves + 1, fs := fs2 }
          era5MarkSave st2 c 0

/-- The checkpoint index of each level type (downloader.py lines 249-259):
single is 0, pressure is 1 when present, model follows pressure. -/
def era5CpIdx (d : Era5) : LevelType → Nat
  | LevelType.single => 0
  | LevelType.pressure => 1
  | LevelType.model => if d.pressure_levels.isSome then 2 else 1

/-- The unit descriptors visited by Era5Downloader.download_data
(downloader.py lines 261-289): for each year and month, the single level
always, then pressure and model levels when configured. -/
def era5UnitList (d : Era5) : List (Int × String × LevelType) :=
  d.years.flatMap fun y => d.months.flatMap fun m =>
    (y, m, LevelType.single) ::
      ((if d.pressure_levels.isSome then [(y, m, LevelType.pressure)] else []) ++
       (if d.model_levels.isSome then [(y, m, LevelType.model)] else []))

/-- One iteration of the download_data loop. -/
def era5Step (d : Era5) (oracle : Int × String × LevelType → Era5Outcome)
    (st : Era5State) (u : Int × String × LevelType) : Era5State :=
  (era5DownloadVariables d oracle st u.1 u.2.1 u.2.2 (era5CpIdx d u.2.2)).1

/-- Embeds Era5Downloader.download_data (downloader.py lines 247-291). -/
def era5DownloadData (d : Era5) (oracle : Int × String × LevelType → Era5Outcome)
    (st : Era5State) : Era5State :=
  (era5UnitList d).foldl (era5Step d oracle) st

/-! ## ERA5 checkpoint construction (downloader.py lines 93-179) -/

/-- The effective month list: the argument, or the twelve two-digit months
(downloader.py lines 99-101). -/
def era5EffectiveMonths (months : Option (List String)) : List String :=
  match months with
  | some ms => ms
  | none => ["01", "02", "03", "04", "05", "06", "07", "08", "09", "10", "11", "12"]

/-- The effective pressure and model level lists (downloader.py lines
109-122): both none defaults to the default pressure levels; an empty but
non-none list is replaced by the corresponding default list. -/
def era5InitLevels (pl ml : Option (List String)) (defPL defML : List String) :
    Option (List String) × Option (List String) :=
  match pl, ml with
  | none, none => (some defPL, none)
  | _, _ =>
    ((match pl with
      | some l => some (if l.isEmpty then defPL else l)
      | none => none),
     (match ml with
      | some l => some (if l.isEmpty then defML else l)
      | none => none))

/-- The number of active level types (downloader.py lines 161-165):
single always counts, pressure and model when configured. -/
def era5NumLevelTypes (pl ml : Option (List String)) : Nat :=
  1 + (if pl.isSome then 1 else 0) + (if ml.isSome then 1 else 0)

/-- The shape of a freshly constructed checkpoint (downloader.py lines
171-178): three axes when more than one level type is active, two
otherwise. -/
def era5FreshShape (nY nM L : Nat) : List Nat :=
  if 1 < L then [nY, nM, L] else [nY, nM]

/-- The checkpoint shape produced by Era5Downloader.__init__ for the given
constructor arguments and mappings defaults. -/
def era5InitShape (nY : Nat) (months pl ml : Option (List String))
    (defPL defML : List String) : List Nat :=
  let lv := era5InitLevels pl ml defPL defML
  era5FreshShape nY (era5EffectiveMonths months).length (era5NumLevelTypes lv.1 lv.2)

/-! ## ICON-DREAM Global downloader (rbc/weather/icon_dream_global/downloader.py) -/

/-- The static configuration of an IconDreamGlobalDownloader. -/
structure Icon where
  years : List Int
  months : List String
  vars : List String
  dry_run : Bool

/-- The outcome of the HTTP fetch of one file: success, an exception before
the output file is opened (requests.get raises), or an exception in the
middle of writing the output file. -/
inductive IconOutcome where
  | ok : IconOutcome
  | failBeforeWrite : IconOutcome
  | failDuringWrite : IconOutcome
deriving DecidableEq

/-- The mutable state of one Icon download_data run: checkpoint and its
pickled copy, the number of pickle saves, the files present in the output
directory, and the (year, month, variable) units for which _download_file
was invoked. -/
structure IconState where
  checkpoint : Coord3 → Nat
  disk : Coord3 → Nat
  saves : Nat
  fs : List String
  attempts : List (Int × String × String)

/-- The output filename of one unit (downloader.py line 245). -/
def iconFileName (year : Int) (month v : String) : String :=
  s!"ICON-DREAM-Global_{year}{month}_{v}_hourly.grb"

/-- Embeds IconDreamGlobalDownloader._download_file (downloader.py lines
233-311): an already existing local file or a dry run returns 1 without
fetching; a successful fetch writes the file and returns 1; on an
exception the partly written file, if any, is unlinked and 0 is
returned. -/
def iconDownloadFile (d : Icon) (oracle : Int × String × String → IconOutcome)
    (st : IconState) (year : Int) (month v : String) : IconState × Nat :=
  let fname := iconFileName year month v
  if st.fs.contains fname then (st, 1)
  else if d.dry_run then (st, 1)
  else
    match oracle (year, month, v) with
    | IconOutcome.ok => ({ st with fs := fname :: st.fs }, 1)
    | IconOutcome.failBeforeWrite => (st, 0)
    | IconOutcome.failDuringWrite => ({ st with fs := (fname :: st.fs).erase fname }, 0)

/-- The unit descriptors visited by download_data: enumerated years,
months and variables in nested declaration order (downloader.py lines
211-215). -/
def iconUnitList (d : Icon) : List ((Nat × Int) × (Nat × String) × (Nat × String)) :=
  d.years.enum.flatMap fun yu => d.months.enum.flatMap fun mu =>
    d.vars.enum.map fun vu => (yu, mu, vu)

/-- One iteration of the Icon download_data loop body (downloader.py lines
216-229): skip a nonzero cell; otherwise invoke _download_file, and only
when its status is 1 store 1 in the cell and pickle the checkpoint. -/
def iconStep (d : Icon) (oracle : Int × String × String → IconOutcome)
    (st : IconState) (u : (Nat × Int) × (Nat × String) × (Nat × String)) : IconState :=
  let yi := u.1.1
  let y := u.1.2
  let mi := u.2.1.1
  let m := u.2.1.2
  let vi := u.2.2.1
  let v := u.2.2.2
  if st.checkpoint (yi, mi, vi) ≠ 0 then st
  else
    let st1 := { st with attempts := st.attempts ++ [(y, m, v)] }
    let r := iconDownloadFile d oracle st1 y m v
    if r.2 = 1 then
      let cp := mark3 r.1.checkpoint (yi, mi, vi) 1
      { r.1 with checkpoint := cp, disk := cp, saves := r.1.saves + 1 }
    else r.1

/-- Embeds IconDreamGlobalDownloader.download_data (downloader.py lines
209-231). -/
def iconDownloadData (d : Icon) (oracle : Int × String × String → IconOutcome)
    (st : IconState) : IconState :=
  (iconUnitList d).foldl (iconStep d oracle) st

/-- The shape of the checkpoint created by IconDreamGlobalDownloader
(downloader.py lines 112-116): always (years, months, variables). -/
def iconInitShape (nY nM nV : Nat) : List Nat := [nY, nM, nV]

/-! ## Concrete fixtures used by witnesses and counterexamples -/

/-- A fresh ENTSO-E run state: all-zero checkpoint, nothing saved yet. -/
def entsoeFresh : EntsoeState :=
  { checkpoint := fun _ => 0, disk := fun _ => 0, saves := 0, attempts := [], fatal := none }

/-- A fresh ERA5 run state with the given checkpoint dimensionality. -/
def era5Fresh (ndim3 : Bool) : Era5State :=
  { checkpoint := fun _ => 0, ndim3 := ndim3, disk := fun _ => 0, saves := 0,
    retrieves := 0, fs := [] }

/-- A fresh ICON run state. -/
def iconFresh : IconState :=
  { checkpoint := fun _ => 0, disk := fun _ => 0, saves := 0, fs := [], attempts := [] }

/-- A one-year, one-month, one-variable ERA5 configuration with a single
single-level variable and a custom pressure level list. -/
def era5W : Era5 :=
  { years := [2020], months := ["01"], vars := ["t2m"],
    pressure_levels := some ["1000"], model_levels := none,
    dry_run := false, file_extension := "grib",
    singleVars := ["t2m"], pressureVars := [], modelVars := [],
    allPressureLevels := ["1000", "925"], allModelLevels := [],
    marsParams := [] }

/-- The same ERA5 configuration with the dry-run flag set. -/
def era5DryW : Era5 :=
  { era5W with dry_run := true }

/-- A one-year, one-month, one-variable ICON configuration. -/
def iconW : Icon :=
  { years := [2020], months := ["01"], vars := ["T"], dry_run := false }

/-! ## Association list lemmas -/

theorem alookup_setKey_self {α : Type} (l : List (String × α)) (k : String) (v : α) :
    alookup (setKey l k v) k = some v := by
  induction l with
  | nil => simp [setKey, alookup]
  | cons p rest ih =>
    rcases p with ⟨k1, w⟩
    by_cases h : k1 = k
    · simp [setKey, alookup, h]
    · simp [setKey, alookup, h, ih]

theorem alookup_setKey_ne {α : Type} (l : List (String × α)) (k k2 : String) (v : α)
    (h : k ≠ k2) : alookup (setKey l k v) k2 = alookup l k2 := by
  induction l with
  | nil => simp [setKey, alookup, h]
  | cons p rest ih =>
    rcases p with ⟨k1, w⟩
    by_cases h1 : k1 = k
    · subst h1; simp [setKey, alookup, h]
    · simp [setKey, alookup, h1, ih]

/-- Every item of the override dict rewrites exactly one key of the base:
the step of update_config is a setKey at the item key. -/
theorem update_config_cons (base : List (String × CVal)) (k : String) (v : CVal)
    (rest : List (String × CVal)) :
    ∃ w, update_config base ((k, v) :: rest) = update_config (setKey base k w) rest := by
  cases v with
  | vnull => exact ⟨CVal.vnull, by simp [update_config]⟩
  | vstr s =>
    exact ⟨if lowerStr s = "none" then CVal.vnull else CVal.vstr s, by simp [update_config]⟩
  | vnum n => exact ⟨CVal.vnum n, by simp [update_config]⟩
  | vdict uv =>
    rcases h : alookup base k with _ | val
    · exact ⟨CVal.vdict uv, by simp [update_config, h]⟩
    · cases val with
      | vdict bv => exact ⟨CVal.vdict (update_config bv uv), by simp [update_config, h]⟩
      | vnull => exact ⟨CVal.vdict uv, by simp [update_config, h]⟩
      | vstr s => exact ⟨CVal.vdict uv, by simp [update_config, h]⟩
      | vnum n => exact ⟨CVal.vdict uv, by simp [update_config, h]⟩

/-- Keys that no override item targets are left untouched by
update_config. -/
theorem update_config_alookup_of_not_key (updates : List (String × CVal)) :
    ∀ (base : List (String × CVal)) (k : String), k ∉ updates.map Prod.fst →
      alookup (update_config base updates) k = alookup base k := by
  induction updates with
  | nil => intro base k _; simp [update_config]
  | cons u rest ih =>
    rcases u with ⟨k1, v⟩
    intro base k hk
    have hk1 : k1 ≠ k := by
      intro h; exact hk (by simp [h])
    have hkrest : k ∉ rest.map Prod.fst := by
      intro h; exact hk (by simp [h])
    rcases update_config_cons base k1 v rest with ⟨w, hw⟩
    rw [hw, ih _ _ hkrest, alookup_setKey_ne _ _ _ _ hk1]

/-! ## Claim theorems for the configuration loader -/

/-- C7. update_config replaces only the targeted leaves: a key absent from
the override dict keeps its base value (so siblings of an overridden leaf
are untouched, level by level); an override string equal to "none" case
insensitively sets the leaf to null; an override dict over a base dict
recurses, leaving the untargeted keys of the sub-dict to the same frame
property. -/
theorem c7_update_config_frame_and_none :
    (∀ (base updates : List (String × CVal)) (k : String),
        k ∉ updates.map Prod.fst →
        alookup (update_config base updates) k = alookup base k) ∧
    (∀ (base updates : List (String × CVal)) (k s : String),
        (updates.map Prod.fst).Nodup → (k, CVal.vstr s) ∈ updates →
        lowerStr s = "none" →
        alookup (update_config base updates) k = some CVal.vnull) ∧
    (∀ (base updates : List (String × CVal)) (k : String)
        (uv bv : List (String × CVal)),
        (updates.map Prod.fst).Nodup → (k, CVal.vdict uv) ∈ updates →
        alookup base k = some (CVal.vdict bv) →
        alookup (update_config base updates) k =
          some (CVal.vdict (update_config bv uv))) := by
  refine ⟨fun base updates k hk => update_config_alookup_of_not_key updates base k hk, ?_, ?_⟩
  · intro base updates k s hnd hmem hs
    induction updates generalizing base with
    | nil => exact absurd hmem (List.not_mem_nil _)
    | cons u rest ih =>
      rcases u with ⟨k1, v⟩
      rcases List.mem_cons.mp hmem with h | h
      · rcases h with ⟨rfl, rfl⟩
        have hrest : k ∉ rest.map Prod.fst := by
          simpa using (List.nodup_cons.mp hnd).1
        have hstep : update_config base ((k, CVal.vstr s) :: rest) =
            update_config (setKey base k CVal.vnull) rest := by
          simp [update_config, hs]
        rw [hstep, update_config_alookup_of_not_key _ _ _ hrest, alookup_setKey_self]
      · rcases update_config_cons base k1 v rest with ⟨w, hw⟩
        rw [hw]
        exact ih _ (List.nodup_cons.mp hnd).2 h
  · intro base updates k uv bv hnd hmem hbase
    induction updates generalizing base with
    | nil => exact absurd hmem (List.not_mem_nil _)
    | cons u rest ih =>
      rcases u with ⟨k1, v⟩
      rcases List.mem_cons.mp hmem with h | h
      · rcases h with ⟨rfl, rfl⟩
        have hrest : k ∉ rest.map Prod.fst := by
          simpa using (List.nodup_cons.mp hnd).1
        have hstep : update_config base ((k, CVal.vdict uv) :: rest) =
            update_config (setKey base k (CVal.vdict (update_config bv uv))) rest := by
          simp [update_config, hbase]
        rw [hstep, update_config_alookup_of_not_key _ _ _ hrest, alookup_setKey_self]
      · have hk1 : k1 ≠ k := by
          intro h1
          subst h1
          exact (List.nodup_cons.mp hnd).1 (List.mem_map.mpr ⟨(k1, CVal.vdict uv), h, rfl⟩)
        rcases update_config_cons base k1 v rest with ⟨w, hw⟩
        rw [hw]
        exact ih _ (List.nodup_cons.mp hnd).2 h
          (by rw [alookup_setKey_ne _ _ _ _ hk1, hbase])

/-- Witness for C7: overriding key b with the string "NONE" in a two-key
dict nulls b and leaves its sibling a untouched. -/
theorem c7_witness :
    ((["b"] : List String).Nodup ∧ ("b", CVal.vstr "NONE") ∈ [("b", CVal.vstr "NONE")] ∧
      lowerStr "NONE" = "none" ∧
      "a" ∉ ([("b", CVal.vstr "NONE")].map (Prod.fst (β := CVal)))) ∧
    alookup (update_config [("a", CVal.vstr "1"), ("b", CVal.vstr "2")]
      [("b", CVal.vstr "NONE")]) "b" = some CVal.vnull ∧
    alookup (update_config [("a", CVal.vstr "1"), ("b", CVal.vstr "2")]
      [("b", CVal.vstr "NONE")]) "a" = some (CVal.vstr "1") := by
  refine ⟨by decide, ?_, ?_⟩
  · exact c7_update_config_frame_and_none.2.1
      [("a", CVal.vstr "1"), ("b", CVal.vstr "2")] [("b", CVal.vstr "NONE")] "b" "NONE"
      (by decide) (by decide) (by decide)
  · exact (c7_update_config_frame_and_none.1
      [("a", CVal.vstr "1"), ("b", CVal.vstr "2")] [("b", CVal.vstr "NONE")] "a"
      (by decide)).trans (by decide)

/-- If some element of the pair list has no "=" character, the parse
raises: either the ArgumentTypeError of that element or an error raised by
an earlier element. -/
theorem parseGo_error_of_missing_eq (pairs : List String) :
    ∀ (result : List (String × CVal)) (p : String), p ∈ pairs →
      p.data.contains (Char.ofNat 61) = false →
      ∃ e, parseGo result pairs = Except.error e := by
  induction pairs with
  | nil => intro result p hp _; exact absurd hp (List.not_mem_nil p)
  | cons q rest ih =>
    intro result p hp hc
    rcases List.mem_cons.mp hp with h | h
    · subst h
      refine ⟨ParseErr.invalidFormat, ?_⟩
      unfold parseGo
      rw [hc]
      simp
    · cases hq : q.data.contains (Char.ofNat 61) with
      | false =>
        refine ⟨ParseErr.invalidFormat, ?_⟩
        unfold parseGo
        rw [hq]
        simp
      | true =>
        rcases hs : splitFirst (Char.ofNat 61) q.data with _ | ⟨key, value⟩
        · refine ⟨ParseErr.invalidFormat, ?_⟩
          unfold parseGo
          rw [hq, hs]
          simp
        · rcases ha : assignPath result ((splitEvery (Char.ofNat 46) key).map String.mk)
              (String.mk value) with e | r2
          · refine ⟨e, ?_⟩
            unfold parseGo
            rw [hq, hs]
            simp [ha]
          · rcases ih r2 p h hc with ⟨e, he⟩
            refine ⟨e, ?_⟩
            unfold parseGo
            rw [hq, hs]
            simp [ha, he]

/-- C8 counterexample: both elements of ["a=1", "a.b=2"] contain "=", yet
parse_key_value_pairs raises a TypeError instead of returning a nested
dictionary, because the path a.b traverses the string previously assigned
at key a. -/
theorem c8_counterexample :
    "a=1".data.contains (Char.ofNat 61) = true ∧
    "a.b=2".data.contains (Char.ofNat 61) = true ∧
    parse_key_value_pairs ["a=1", "a.b=2"] = Except.error ParseErr.typeError :=
  ⟨rfl, rfl, rfl⟩

/-- C8 (amended). parse_key_value_pairs(["a.b=1"]) returns the nested dict
a -> b -> "1"; any list with an element lacking "=" raises an error; but
for a list whose elements all contain "=" the nested-dictionary result is
only produced when no dotted path traverses a previously assigned
non-dict leaf - otherwise a TypeError is raised (see the
counterexample). -/
theorem c8_parse_key_value_pairs :
    parse_key_value_pairs ["a.b=1"] =
      Except.ok [("a", CVal.vdict [("b", CVal.vstr "1")])] ∧
    (∀ (pairs : List String) (p : String), p ∈ pairs →
      p.data.contains (Char.ofNat 61) = false →
      ∃ e, parse_key_value_pairs pairs = Except.error e) := by
  constructor
  · rfl
  · intro pairs p hp hc
    exact parseGo_error_of_missing_eq pairs [] p hp hc

/-- Witness for C8: the element "abc" has no "=", so the parse of ["abc"]
raises. -/
theorem c8_witness :
    ("abc" ∈ ["abc"] ∧ "abc".data.contains (Char.ofNat 61) = false) ∧
    ∃ e, parse_key_value_pairs ["abc"] = Except.error e := by
  refine ⟨by decide, ?_⟩
  exact c8_parse_key_value_pairs.2 ["abc"] "abc" (by decide) (by decide)

/-- C9. load_config returns an object whose source field equals the
requested source whenever it returns at all (the schema of the registry
key pins source to that very literal); a missing config YAML file raises
the file-not-found ValueError; an existing file with a source outside
SCHEMA_REGISTRY raises the unknown-source ValueError. -/
theorem c9_load_config :
    (∀ (source : String) (fileExists : Bool) (yaml : List (String × CVal))
        (overrides : Option (List (String × CVal))) (restOk : Bool) (v : ValidatedConfig),
        load_config source fileExists yaml overrides restOk = Except.ok v →
        v.source = source) ∧
    (∀ (source : String) (yaml : List (String × CVal))
        (overrides : Option (List (String × CVal))) (restOk : Bool),
        load_config source false yaml overrides restOk = Except.error LoadErr.fileNotFound) ∧
    (∀ (source : String) (yaml : List (String × CVal))
        (overrides : Option (List (String × CVal))) (restOk : Bool),
        SCHEMA_REGISTRY.contains source = false →
        load_config source true yaml overrides restOk = Except.error LoadErr.unknownSource) := by
  refine ⟨?_, ?_, ?_⟩
  · intro source fileExists yaml overrides restOk v hok
    cases fileExists with
    | false => simp [load_config] at hok
    | true =>
      rw [load_config] at hok
      simp only [Bool.true_eq_false, if_false] at hok
      by_cases hreg : SCHEMA_REGISTRY.contains source
      · rw [if_pos hreg] at hok
        rw [model_validate] at hok
        rcases hrest : restOk with _ | _
        · simp [hrest] at hok
        · simp only [hrest] at hok
          rcases halk : alookup (match overrides with
              | some o => update_config (mergeSourceKey source yaml) o
              | none => mergeSourceKey source yaml) "source" with _ | val
          · simp [halk] at hok
            subst hok
            rfl
          · cases val with
            | vstr w =>
              simp only [halk] at hok
              by_cases hw : w = source
              · simp [hw] at hok
                subst hok
                rfl
              · simp [hw] at hok
            | vnull => simp [halk] at hok
            | vdict l => simp [halk] at hok
            | vnum n => simp [halk] at hok
      · rw [if_neg hreg] at hok
        exact absurd hok (by simp)
  · intro source yaml overrides restOk
    simp [load_config]
  · intro source yaml overrides restOk hreg
    have hmem : source ∉ SCHEMA_REGISTRY := by simpa using hreg
    simp [load_config, hmem]

/-- Witness for C9: loading an existing entsoe config whose YAML carries no
source key validates and reports source entsoe; the unknown source dwd
with an existing file raises. -/
theorem c9_witness :
    (load_config "entsoe" true [] none true = Except.ok { source := "entsoe" } ∧
      ValidatedConfig.source { source := "entsoe" } = "entsoe") ∧
    (SCHEMA_REGISTRY.contains "dwd" = false ∧
      load_config "dwd" true [] none true = Except.error LoadErr.unknownSource) := by
  refine ⟨⟨rfl, ?_⟩, ⟨rfl, ?_⟩⟩
  · exact c9_load_config.1 "entsoe" true [] none true { source := "entsoe" } rfl
  · exact c9_load_config.2.2 "dwd" [] none true rfl

/-! ## Checkpoint cell lemmas -/

theorem mark2_self (cp : Coord2 → Nat) (c : Coord2) (s : Nat) : mark2 cp c s c = s := by
  simp [mark2]

theorem mark2_ne (cp : Coord2 → Nat) (c c2 : Coord2) (s : Nat) (h : c2 ≠ c) :
    mark2 cp c s c2 = cp c2 := by
  simp [mark2, h]

theorem mark3_self (cp : Coord3 → Nat) (c : Coord3) (s : Nat) : mark3 cp c s c = s := by
  simp [mark3]

theorem mark3_ne (cp : Coord3 → Nat) (c c2 : Coord3) (s : Nat) (h : c2 ≠ c) :
    mark3 cp c s c2 = cp c2 := by
  simp [mark3, h]

/-- Every status dump_to_csv can return is 0 or 1. -/
theorem dump_to_csv_status (r : EntsoeApiResult) (s : Nat)
    (h : dump_to_csv r = Except.ok s) : s = 0 ∨ s = 1 := by
  cases r <;> simp [dump_to_csv] at h <;> omega

/-! ## C6: ENTSO-E per-unit error taxonomy -/

/-- C6. dump_to_csv maps the provider-unavailable outcome to a raised
ValueError; a query that does not return data or misses the relevant
columns to status 0; a confirmed-empty result to status 1. The raised
error terminates the whole run: a run whose fatal flag is set ignores all
remaining units, and a pending unit hitting the unavailable outcome sets
the fatal flag; a unit that returns a status touches no other
coordinate. -/
theorem c6_entsoe_error_taxonomy :
    dump_to_csv EntsoeApiResult.serviceUnavailable =
      Except.error "Entso-E Transparency Platform is currently unavailable!" ∧
    dump_to_csv EntsoeApiResult.queryObjectReturned = Except.ok 0 ∧
    dump_to_csv EntsoeApiResult.missingColumns = Except.ok 0 ∧
    dump_to_csv EntsoeApiResult.emptyResult = Except.ok 1 ∧
    (∀ (oracle : String → String → EntsoeApiResult) (st : EntsoeState)
        (u : (Nat × String) × (Nat × String)) (e : String),
        st.fatal = some e → entsoeStep oracle st u = st) ∧
    (∀ (oracle : String → String → EntsoeApiResult) (st : EntsoeState)
        (yi : Nat) (y : String) (zi : Nat) (z : String),
        st.fatal = none → st.checkpoint (yi, zi) = 0 →
        oracle z y = EntsoeApiResult.serviceUnavailable →
        (entsoeStep oracle st ((yi, y), (zi, z))).fatal =
          some "Entso-E Transparency Platform is currently unavailable!") ∧
    (∀ (oracle : String → String → EntsoeApiResult) (st : EntsoeState)
        (yi : Nat) (y : String) (zi : Nat) (z : String) (s : Nat) (c : Coord2),
        st.fatal = none → st.checkpoint (yi, zi) = 0 →
        dump_to_csv (oracle z y) = Except.ok s → c ≠ (yi, zi) →
        (entsoeStep oracle st ((yi, y), (zi, z))).checkpoint c = st.checkpoint c) := by
  refine ⟨rfl, rfl, rfl, rfl, ?_, ?_, ?_⟩
  · intro oracle st u e hf
    simp [entsoeStep, hf]
  · intro oracle st yi y zi z hf hcell horacle
    simp [entsoeStep, hf, hcell, horacle, dump_to_csv]
  · intro oracle st yi y zi z s c hf hcell hdump hc
    simp [entsoeStep, hf, hcell, hdump]
    exact mark2_ne _ _ _ _ hc

/-- Witness for C6: a pending unit whose query hits the unavailable
outcome turns the run fatal. -/
theorem c6_witness :
    (entsoeFresh.fatal = none ∧ entsoeFresh.checkpoint (0, 0) = 0) ∧
    (entsoeStep (fun _ _ => EntsoeApiResult.serviceUnavailable) entsoeFresh
      ((0, "2020"), (0, "10YES-REE------0"))).fatal =
      some "Entso-E Transparency Platform is currently unavailable!" := by
  refine ⟨⟨rfl, rfl⟩, ?_⟩
  exact c6_entsoe_error_taxonomy.2.2.2.2.2.1
    (fun _ _ => EntsoeApiResult.serviceUnavailable) entsoeFresh
    0 "2020" 0 "10YES-REE------0" rfl rfl rfl

/-! ## C3: ERA5 dry run -/

/-- A dry-run step of the ERA5 orchestrator never calls client.retrieve
and leaves every checkpoint cell value unchanged (an exception while
building the request re-stores the 0 already present in the cell). -/
theorem era5Step_dry (d : Era5) (oracle : Int × String × LevelType → Era5Outcome)
    (st : Era5State) (u : Int × String × LevelType) (hdry : d.dry_run = true) :
    (era5Step d oracle st u).retrieves = st.retrieves ∧
    ∀ c, (era5Step d oracle st u).checkpoint c = st.checkpoint c := by
  rcases u with ⟨y, m, lt⟩
  unfold era5Step era5DownloadVariables
  by_cases hv : (era5VarsFor d lt).isEmpty
  · simp [hv]
  · simp only [hv, Bool.false_eq_true, if_false]
    set c := era5Cell st.ndim3 (d.years.indexOf y) (d.months.indexOf m) (era5CpIdx d lt) with hc
    by_cases hcell : st.checkpoint c ≠ 0
    · simp [hcell]
    · push_neg at hcell
      cases horacle : oracle (y, m, lt) with
      | buildRaise =>
        simp only [hcell, ne_eq, not_true_eq_false, if_false, horacle, era5MarkSave]
        constructor
        · trivial
        · intro c2
          by_cases h2 : c2 = c
          · subst h2; rw [mark3_self, hcell]
          · exact mark3_ne _ _ _ _ h2
      | retrieveOk => simp [hcell, horacle, hdry]
      | retrieveRaise fw => simp [hcell, horacle, hdry]

/-- C3. With dry_run set, a full run of the ERA5 download_data loop never
calls client.retrieve (the retrieve counter is unchanged) and leaves every
checkpoint cell value unchanged, so no cell is ever set to 1. -/
theorem c3_era5_dry_run (d : Era5) (oracle : Int × String × LevelType → Era5Outcome)
    (st : Era5State) (hdry : d.dry_run = true) :
    (era5DownloadData d oracle st).retrieves = st.retrieves ∧
    ∀ c, (era5DownloadData d oracle st).checkpoint c = st.checkpoint c := by
  unfold era5DownloadData
  generalize era5UnitList d = us
  induction us generalizing st with
  | nil => exact ⟨rfl, fun _ => rfl⟩
  | cons u rest ih =>
    rcases era5Step_dry d oracle st u hdry with ⟨hr, hcp⟩
    rcases ih (era5Step d oracle st u) with ⟨ihr, ihcp⟩
    refine ⟨by rw [List.foldl_cons, ihr, hr], ?_⟩
    intro c
    rw [List.foldl_cons, ihcp c, hcp c]

/-- Witness for C3: a dry run over the one-unit grid performs zero
retrieve calls and leaves the fresh checkpoint cell at 0. -/
theorem c3_witness :
    era5DryW.dry_run = true ∧
    (era5DownloadData era5DryW (fun _ => Era5Outcome.retrieveOk) (era5Fresh true)).retrieves =
      (era5Fresh true).retrieves ∧
    (era5DownloadData era5DryW (fun _ => Era5Outcome.retrieveOk) (era5Fresh true)).checkpoint
      (0, 0, 0) = (era5Fresh true).checkpoint (0, 0, 0) := by
  refine ⟨rfl, ?_, ?_⟩
  · exact (c3_era5_dry_run era5DryW (fun _ => Era5Outcome.retrieveOk) (era5Fresh true) rfl).1
  · exact (c3_era5_dry_run era5DryW (fun _ => Era5Outcome.retrieveOk) (era5Fresh true) rfl).2
      (0, 0, 0)

/-! ## C4: checkpoint shape -/

/-- The single level type always counts, so at least one level type is
active. -/
theorem era5NumLevelTypes_pos (pl ml : Option (List String)) :
    1 ≤ era5NumLevelTypes pl ml := by
  unfold era5NumLevelTypes
  omega

/-- With more than one active level type the fresh checkpoint is
three-dimensional. -/
theorem era5FreshShape_3d (nY nM L : Nat) (h : 1 < L) :
    era5FreshShape nY nM L = [nY, nM, L] := by
  simp [era5FreshShape, h]

/-- The cell count of the fresh checkpoint is the product of the grid
dimensions. -/
theorem era5FreshShape_prod (nY nM L : Nat) (h : 1 ≤ L) :
    (era5FreshShape nY nM L).prod = nY * nM * L := by
  unfold era5FreshShape
  by_cases hgt : 1 < L
  · simp [hgt]
    ring
  · have h1 : L = 1 := by omega
    subst h1
    simp [hgt]

/-- C4. For a freshly constructed ERA5 downloader over Y years and the
effective list of M months with L active level types: when L exceeds 1
the checkpoint shape is (Y, M, L); the two-dimensional branch of the
shape selection yields (Y, M) exactly when one level type is active; in
every configuration the number of cells is the product Y * M * L. The
ICON checkpoint is always (Y, M, V) with Y * M * V cells. -/
theorem c4_checkpoint_shape :
    (∀ (nY : Nat) (months pl ml : Option (List String)) (defPL defML : List String),
      (1 < era5NumLevelTypes (era5InitLevels pl ml defPL defML).1
          (era5InitLevels pl ml defPL defML).2 →
        era5InitShape nY months pl ml defPL defML =
          [nY, (era5EffectiveMonths months).length,
            era5NumLevelTypes (era5InitLevels pl ml defPL defML).1
              (era5InitLevels pl ml defPL defML).2]) ∧
      (era5InitShape nY months pl ml defPL defML).prod =
        nY * (era5EffectiveMonths months).length *
          era5NumLevelTypes (era5InitLevels pl ml defPL defML).1
            (era5InitLevels pl ml defPL defML).2) ∧
    (∀ nY nM : Nat, era5FreshShape nY nM 1 = [nY, nM]) ∧
    (∀ nY nM nV : Nat, iconInitShape nY nM nV = [nY, nM, nV] ∧
      (iconInitShape nY nM nV).prod = nY * nM * nV) := by
  refine ⟨?_, ?_, ?_⟩
  · intro nY months pl ml defPL defML
    have hunfold : era5InitShape nY months pl ml defPL defML =
        era5FreshShape nY (era5EffectiveMonths months).length
          (era5NumLevelTypes (era5InitLevels pl ml defPL defML).1
            (era5InitLevels pl ml defPL defML).2) := rfl
    rw [hunfold]
    exact ⟨fun hgt => era5FreshShape_3d _ _ _ hgt,
      era5FreshShape_prod _ _ _ (era5NumLevelTypes_pos _ _)⟩
  · intro nY nM
    rfl
  · intro nY nM nV
    exact ⟨rfl, by simp [iconInitShape]; ring⟩

/-- Witness for C4: one year, defaulted months, both level lists absent:
pressure levels default in, two level types are active, the shape is
(1, 12, 2) with 24 cells. -/
theorem c4_witness :
    (1 < era5NumLevelTypes (era5InitLevels none none ["1000"] ["137"]).1
        (era5InitLevels none none ["1000"] ["137"]).2) ∧
    era5InitShape 1 none none none ["1000"] ["137"] = [1, 12, 2] ∧
    (era5InitShape 1 none none none ["1000"] ["137"]).prod = 24 := by
  refine ⟨by decide, ?_, ?_⟩
  · exact ((c4_checkpoint_shape.1 1 none none none ["1000"] ["137"]).1 (by decide)).trans
      (by decide)
  · exact ((c4_checkpoint_shape.1 1 none none none ["1000"] ["137"]).2).trans (by decide)

/-! ## C5: partial-file cleanup -/

/-- The inserted file is present afterwards. -/
theorem insertFile_contains (fs : List String) (f : String) :
    (insertFile fs f).contains f = true := by
  unfold insertFile
  by_cases h : f ∈ fs
  · simp [h]
  · simp [h]

/-- C5 counterexample: an ERA5 unit whose retrieve raises after writing a
partial output file returns status 0 but leaves the partial file in the
output directory. -/
theorem c5_counterexample :
    (era5DownloadVariables era5W (fun _ => Era5Outcome.retrieveRaise true) (era5Fresh true)
        2020 "01" LevelType.single 0).2 = 0 ∧
    (era5DownloadVariables era5W (fun _ => Era5Outcome.retrieveRaise true) (era5Fresh true)
        2020 "01" LevelType.single 0).1.fs =
      [era5OutputFile era5W 2020 "01" LevelType.single] ∧
    era5OutputFile era5W 2020 "01" LevelType.single = "era5_2020_01_sl_t2m.grib" := by
  refine ⟨?_, ?_, ?_⟩ <;> decide

/-- C5 (amended). The ICON unit downloader removes the partly written
output file before returning status 0, so no partial file remains; the
ERA5 unit downloader returns status 0 but leaves the partly written
output file in the output directory (it performs no cleanup). -/
theorem c5_partial_file_cleanup :
    (∀ (d : Icon) (oracle : Int × String × String → IconOutcome) (st : IconState)
        (y : Int) (m v : String),
        st.fs.contains (iconFileName y m v) = false → d.dry_run = false →
        oracle (y, m, v) = IconOutcome.failDuringWrite →
        (iconDownloadFile d oracle st y m v).2 = 0 ∧
        (iconDownloadFile d oracle st y m v).1.fs = st.fs ∧
        (iconDownloadFile d oracle st y m v).1.fs.contains (iconFileName y m v) = false) ∧
    (∀ (d : Era5) (oracle : Int × String × LevelType → Era5Outcome) (st : Era5State)
        (y : Int) (m : String) (lt : LevelType) (i : Nat),
        (era5VarsFor d lt).isEmpty = false →
        st.checkpoint (era5Cell st.ndim3 (d.years.indexOf y) (d.months.indexOf m) i) = 0 →
        d.dry_run = false → oracle (y, m, lt) = Era5Outcome.retrieveRaise true →
        (era5DownloadVariables d oracle st y m lt i).2 = 0 ∧
        (era5DownloadVariables d oracle st y m lt i).1.fs =
          insertFile st.fs (era5OutputFile d y m lt) ∧
        (era5DownloadVariables d oracle st y m lt i).1.fs.contains
          (era5OutputFile d y m lt) = true) := by
  constructor
  · intro d oracle st y m v hfs hdry horacle
    unfold iconDownloadFile
    simp only [hfs, Bool.false_eq_true, if_false, hdry, horacle]
    refine ⟨by trivial, ?_, ?_⟩
    · show (iconFileName y m v :: st.fs).erase (iconFileName y m v) = st.fs
      rw [List.erase_cons_head]
    · show ((iconFileName y m v :: st.fs).erase (iconFileName y m v)).contains
        (iconFileName y m v) = false
      rw [List.erase_cons_head]
      exact hfs
  · intro d oracle st y m lt i hv hcell hdry horacle
    unfold era5DownloadVariables
    simp only [hv, Bool.false_eq_true, if_false, hcell, ne_eq, not_true_eq_false,
      horacle, hdry, era5MarkSave]
    exact ⟨by trivial, by trivial, insertFile_contains _ _⟩

/-- Witness for C5: a failing ICON unit download leaves no partial file
behind. -/
theorem c5_witness :
    (iconFresh.fs.contains (iconFileName 2020 "01" "T") = false ∧
      iconW.dry_run = false) ∧
    (iconDownloadFile iconW (fun _ => IconOutcome.failDuringWrite) iconFresh
        2020 "01" "T").2 = 0 ∧
    (iconDownloadFile iconW (fun _ => IconOutcome.failDuringWrite) iconFresh
        2020 "01" "T").1.fs = iconFresh.fs := by
  refine ⟨⟨rfl, rfl⟩, ?_, ?_⟩
  · exact (c5_partial_file_cleanup.1 iconW (fun _ => IconOutcome.failDuringWrite) iconFresh
      2020 "01" "T" rfl rfl rfl).1
  · exact (c5_partial_file_cleanup.1 iconW (fun _ => IconOutcome.failDuringWrite) iconFresh
      2020 "01" "T" rfl rfl rfl).2.1

/-! ## C1: write and persist after every unit attempt -/

/-- The ICON unit downloader touches only the filesystem: checkpoint,
disk copy, save counter and attempt list pass through unchanged. -/
theorem iconDownloadFile_frame (d : Icon) (oracle : Int × String × String → IconOutcome)
    (st : IconState) (y : Int) (m v : String) :
    (iconDownloadFile d oracle st y m v).1.checkpoint = st.checkpoint ∧
    (iconDownloadFile d oracle st y m v).1.disk = st.disk ∧
    (iconDownloadFile d oracle st y m v).1.saves = st.saves ∧
    (iconDownloadFile d oracle st y m v).1.attempts = st.attempts := by
  unfold iconDownloadFile
  cases h1 : st.fs.contains (iconFileName y m v) with
  | true =>
    have h1m : iconFileName y m v ∈ st.fs := by simpa using h1
    simp [h1m]
  | false =>
    have h1m : iconFileName y m v ∉ st.fs := by simpa using h1
    cases h2 : d.dry_run with
    | true => simp [h1m, h2]
    | false => cases h3 : oracle (y, m, v) <;> simp [h1m, h2, h3]

/-- C1 counterexample: on the one-unit ICON grid a unit whose download
fails (status 0) is attempted, yet the checkpoint is neither written nor
pickled: the run ends with one attempt, zero saves, and the cell still
0, contradicting mark-then-save after every unit attempt. -/
theorem c1_counterexample :
    (iconDownloadData iconW (fun _ => IconOutcome.failBeforeWrite) iconFresh).attempts =
      [(2020, "01", "T")] ∧
    (iconDownloadData iconW (fun _ => IconOutcome.failBeforeWrite) iconFresh).saves = 0 ∧
    (iconDownloadData iconW (fun _ => IconOutcome.failBeforeWrite) iconFresh).checkpoint
      (0, 0, 0) = 0 := by
  refine ⟨?_, ?_, ?_⟩ <;> decide

/-- C1 (amended). Done cells are skipped by all three orchestrators. For
ENTSO-E, every unit attempt writes the returned status (0 or 1) into the
cell and immediately pickles the checkpoint. For ERA5 in a non-dry run,
every unit attempt does the same. For ICON-DREAM, only a unit attempt
with status 1 writes the cell and pickles; a unit attempt with status 0
leaves checkpoint, pickled copy and save counter untouched. -/
theorem c1_mark_then_save :
    (∀ (oracle : String → String → EntsoeApiResult) (st : EntsoeState)
        (yi : Nat) (y : String) (zi : Nat) (z : String),
        st.fatal = none → st.checkpoint (yi, zi) ≠ 0 →
        entsoeStep oracle st ((yi, y), (zi, z)) = st) ∧
    (∀ (oracle : String → String → EntsoeApiResult) (st : EntsoeState)
        (yi : Nat) (y : String) (zi : Nat) (z : String) (s : Nat),
        st.fatal = none → st.checkpoint (yi, zi) = 0 →
        dump_to_csv (oracle z y) = Except.ok s →
        (entsoeStep oracle st ((yi, y), (zi, z))).checkpoint =
          mark2 st.checkpoint (yi, zi) s ∧
        (entsoeStep oracle st ((yi, y), (zi, z))).disk =
          (entsoeStep oracle st ((yi, y), (zi, z))).checkpoint ∧
        (entsoeStep oracle st ((yi, y), (zi, z))).saves = st.saves + 1 ∧
        (entsoeStep oracle st ((yi, y), (zi, z))).attempts = st.attempts ++ [(z, y)]) ∧
    (∀ (d : Era5) (oracle : Int × String × LevelType → Era5Outcome) (st : Era5State)
        (y : Int) (m : String) (lt : LevelType) (i : Nat),
        (era5VarsFor d lt).isEmpty = false →
        st.checkpoint (era5Cell st.ndim3 (d.years.indexOf y) (d.months.indexOf m) i) ≠ 0 →
        era5DownloadVariables d oracle st y m lt i = (st, 1)) ∧
    (∀ (d : Era5) (oracle : Int × String × LevelType → Era5Outcome) (st : Era5State)
        (y : Int) (m : String) (lt : LevelType) (i : Nat),
        d.dry_run = false → (era5VarsFor d lt).isEmpty = false →
        st.checkpoint (era5Cell st.ndim3 (d.years.indexOf y) (d.months.indexOf m) i) = 0 →
        (era5DownloadVariables d oracle st y m lt i).1.checkpoint =
          mark3 st.checkpoint
            (era5Cell st.ndim3 (d.years.indexOf y) (d.months.indexOf m) i)
            (era5DownloadVariables d oracle st y m lt i).2 ∧
        (era5DownloadVariables d oracle st y m lt i).1.disk =
          (era5DownloadVariables d oracle st y m lt i).1.checkpoint ∧
        (era5DownloadVariables d oracle st y m lt i).1.saves = st.saves + 1 ∧
        ((era5DownloadVariables d oracle st y m lt i).2 = 0 ∨
          (era5DownloadVariables d oracle st y m lt i).2 = 1)) ∧
    (∀ (d : Icon) (oracle : Int × String × String → IconOutcome) (st : IconState)
        (yi : Nat) (y : Int) (mi : Nat) (m : String) (vi : Nat) (v : String),
        st.checkpoint (yi, mi, vi) ≠ 0 →
        iconStep d oracle st ((yi, y), ((mi, m), (vi, v))) = st) ∧
    (∀ (d : Icon) (oracle : Int × String × String → IconOutcome) (st : IconState)
        (yi : Nat) (y : Int) (mi : Nat) (m : String) (vi : Nat) (v : String),
        st.checkpoint (yi, mi, vi) = 0 →
        ((iconDownloadFile d oracle
            { st with attempts := st.attempts ++ [(y, m, v)] } y m v).2 = 1 →
          (iconStep d oracle st ((yi, y), ((mi, m), (vi, v)))).checkpoint =
            mark3 st.checkpoint (yi, mi, vi) 1 ∧
          (iconStep d oracle st ((yi, y), ((mi, m), (vi, v)))).disk =
            (iconStep d oracle st ((yi, y), ((mi, m), (vi, v)))).checkpoint ∧
          (iconStep d oracle st ((yi, y), ((mi, m), (vi, v)))).saves = st.saves + 1) ∧
        ((iconDownloadFile d oracle
            { st with attempts := st.attempts ++ [(y, m, v)] } y m v).2 = 0 →
          (iconStep d oracle st ((yi, y), ((mi, m), (vi, v)))).checkpoint = st.checkpoint ∧
          (iconStep d oracle st ((yi, y), ((mi, m), (vi, v)))).disk = st.disk ∧
          (iconStep d oracle st ((yi, y), ((mi, m), (vi, v)))).saves = st.saves ∧
          (iconStep d oracle st ((yi, y), ((mi, m), (vi, v)))).attempts =
            st.attempts ++ [(y, m, v)])) := by
  refine ⟨?_, ?_, ?_, ?_, ?_, ?_⟩
  · intro oracle st yi y zi z hf hcell
    simp [entsoeStep, hf, hcell]
  · intro oracle st yi y zi z s hf hcell hdump
    simp [entsoeStep, hf, hcell, hdump]
  · intro d oracle st y m lt i hv hcell
    unfold era5DownloadVariables
    simp [hv, hcell]
  · intro d oracle st y m lt i hdry hv hcell
    unfold era5DownloadVariables
    simp only [hv, Bool.false_eq_true, if_false, hcell, ne_eq, not_true_eq_false, hdry]
    cases h3 : oracle (y, m, lt) with
    | buildRaise => simp [era5MarkSave]
    | retrieveOk => simp [era5MarkSave]
    | retrieveRaise fw => simp [era5MarkSave]
  · intro d oracle st yi y mi m vi v hcell
    simp [iconStep, hcell]
  · intro d oracle st yi y mi m vi v hcell
    have hframe := iconDownloadFile_frame d oracle
      { st with attempts := st.attempts ++ [(y, m, v)] } y m v
    constructor
    · intro h1
      unfold iconStep
      simp only [hcell, ne_eq, not_true_eq_false, if_false, h1, if_true]
      refine ⟨?_, ?_, ?_⟩
      · rw [hframe.1]
      · trivial
      · rw [hframe.2.2.1]
    · intro h0
      unfold iconStep
      simp only [hcell, ne_eq, not_true_eq_false, if_false, h0]
      exact ⟨hframe.1, hframe.2.1, hframe.2.2.1, hframe.2.2.2⟩

/-- Witness for C1: an ENTSO-E unit attempt that returns status 0 (no
data) still writes the cell and pickles: one save, cell written 0. -/
theorem c1_witness :
    (entsoeFresh.fatal = none ∧ entsoeFresh.checkpoint (0, 0) = 0 ∧
      dump_to_csv ((fun _ _ => EntsoeApiResult.queryObjectReturned) "Z" "2020") =
        Except.ok 0) ∧
    (entsoeStep (fun _ _ => EntsoeApiResult.queryObjectReturned) entsoeFresh
      ((0, "2020"), (0, "Z"))).saves = entsoeFresh.saves + 1 ∧
    (entsoeStep (fun _ _ => EntsoeApiResult.queryObjectReturned) entsoeFresh
      ((0, "2020"), (0, "Z"))).disk =
      (entsoeStep (fun _ _ => EntsoeApiResult.queryObjectReturned) entsoeFresh
        ((0, "2020"), (0, "Z"))).checkpoint := by
  refine ⟨⟨rfl, rfl, rfl⟩, ?_, ?_⟩
  · exact (c1_mark_then_save.2.1 (fun _ _ => EntsoeApiResult.queryObjectReturned)
      entsoeFresh 0 "2020" 0 "Z" 0 rfl rfl rfl).2.2.1
  · exact (c1_mark_then_save.2.1 (fun _ _ => EntsoeApiResult.queryObjectReturned)
      entsoeFresh 0 "2020" 0 "Z" 0 rfl rfl rfl).2.1

/-! ## C10: cell evolution across a run -/

/-- One loop iteration either leaves a cell untouched or writes 0 or 1
into a cell currently holding 0; this lifts along foldl. -/
theorem foldl_cell_evolution {σ υ γ : Type} (step : σ → υ → σ) (cp : σ → γ → Nat)
    (hstep : ∀ st u c, cp (step st u) c = cp st c ∨
      (cp st c = 0 ∧ (cp (step st u) c = 0 ∨ cp (step st u) c = 1))) :
    ∀ (us : List υ) (st : σ) (c : γ),
      cp (us.foldl step st) c = cp st c ∨
        (cp st c = 0 ∧ (cp (us.foldl step st) c = 0 ∨ cp (us.foldl step st) c = 1)) := by
  intro us
  induction us with
  | nil => intro st c; exact Or.inl rfl
  | cons u rest ih =>
    intro st c
    rw [List.foldl_cons]
    rcases hstep st u c with h1 | ⟨h0, h01⟩
    · rcases ih (step st u) c with h2 | ⟨h20, h201⟩
      · exact Or.inl (h2.trans h1)
      · exact Or.inr ⟨h1.symm.trans h20, h201⟩
    · rcases ih (step st u) c with h2 | ⟨h20, h201⟩
      · rcases h01 with ha | hb
        · exact Or.inr ⟨h0, Or.inl (h2.trans ha)⟩
        · exact Or.inr ⟨h0, Or.inr (h2.trans hb)⟩
      · exact Or.inr ⟨h0, h201⟩

/-- The three consequences of the cell evolution: values stay in 0/1,
cells never decrease, a 1 cell stays 1. -/
theorem foldl_cell_consequences {σ υ γ : Type} (step : σ → υ → σ) (cp : σ → γ → Nat)
    (hstep : ∀ st u c, cp (step st u) c = cp st c ∨
      (cp st c = 0 ∧ (cp (step st u) c = 0 ∨ cp (step st u) c = 1)))
    (us : List υ) (st : σ) :
    ((∀ c, cp st c = 0 ∨ cp st c = 1) →
      ∀ c, cp (us.foldl step st) c = 0 ∨ cp (us.foldl step st) c = 1) ∧
    (∀ c, cp st c ≤ cp (us.foldl step st) c) ∧
    (∀ c, cp st c = 1 → cp (us.foldl step st) c = 1) := by
  refine ⟨?_, ?_, ?_⟩
  · intro h01 c
    rcases foldl_cell_evolution step cp hstep us st c with h | ⟨_, h⟩
    · rw [h]; exact h01 c
    · exact h
  · intro c
    rcases foldl_cell_evolution step cp hstep us st c with h | ⟨h0, _⟩
    · exact le_of_eq h.symm
    · rw [h0]; exact Nat.zero_le _
  · intro c h1
    rcases foldl_cell_evolution step cp hstep us st c with h | ⟨h0, _⟩
    · rw [h, h1]
    · rw [h1] at h0; exact absurd h0 one_ne_zero

/-- One ENTSO-E loop iteration writes only a 0 cell and writes 0 or 1. -/
theorem entsoeStep_cell (oracle : String → String → EntsoeApiResult)
    (st : EntsoeState) (u : (Nat × String) × (Nat × String)) (c : Coord2) :
    (entsoeStep oracle st u).checkpoint c = st.checkpoint c ∨
      (st.checkpoint c = 0 ∧
        ((entsoeStep oracle st u).checkpoint c = 0 ∨
          (entsoeStep oracle st u).checkpoint c = 1)) := by
  rcases u with ⟨⟨yi, y⟩, zi, z⟩
  cases hf : st.fatal with
  | some e => left; rw [c6_entsoe_error_taxonomy.2.2.2.2.1 oracle st ((yi, y), (zi, z)) e hf]
  | none =>
    by_cases hcell : st.checkpoint (yi, zi) = 0
    · cases hdump : dump_to_csv (oracle z y) with
      | error e => left; simp [entsoeStep, hf, hcell, hdump]
      | ok s =>
        by_cases hc : c = (yi, zi)
        · right
          refine ⟨by rw [hc]; exact hcell, ?_⟩
          have hstep : (entsoeStep oracle st ((yi, y), (zi, z))).checkpoint c = s := by
            simp [entsoeStep, hf, hcell, hdump, hc, mark2_self]
          rw [hstep]
          exact dump_to_csv_status _ _ hdump
        · left
          have : (entsoeStep oracle st ((yi, y), (zi, z))).checkpoint c =
              mark2 st.checkpoint (yi, zi) s c := by
            simp [entsoeStep, hf, hcell, hdump]
          rw [this]
          exact mark2_ne _ _ _ _ hc
    · left; simp [entsoeStep, hf, hcell]

/-- One ERA5 loop iteration writes only a 0 cell and writes 0 or 1. -/
theorem era5Step_cell (d : Era5) (oracle : Int × String × LevelType → Era5Outcome)
    (st : Era5State) (u : Int × String × LevelType) (c : Coord3) :
    (era5Step d oracle st u).checkpoint c = st.checkpoint c ∨
      (st.checkpoint c = 0 ∧
        ((era5Step d oracle st u).checkpoint c = 0 ∨
          (era5Step d oracle st u).checkpoint c = 1)) := by
  rcases u with ⟨y, m, lt⟩
  unfold era5Step era5DownloadVariables
  cases hv : (era5VarsFor d lt).isEmpty with
  | true => simp [hv]
  | false =>
    simp only [hv, Bool.false_eq_true, if_false]
    set c0 := era5Cell st.ndim3 (d.years.indexOf y) (d.months.indexOf m) (era5CpIdx d lt)
      with hc0
    by_cases hcell : st.checkpoint c0 = 0
    · simp only [hcell, ne_eq, not_true_eq_false, if_false]
      cases horacle : oracle (y, m, lt) with
      | buildRaise =>
        simp only [era5MarkSave]
        by_cases hc : c = c0
        · subst hc
          exact Or.inr ⟨hcell, Or.inl (mark3_self _ _ _)⟩
        · exact Or.inl (mark3_ne _ _ _ _ hc)
      | retrieveOk =>
        cases hdry : d.dry_run with
        | true => simp
        | false =>
          simp only [era5MarkSave]
          by_cases hc : c = c0
          · subst hc
            exact Or.inr ⟨hcell, Or.inr (mark3_self _ _ _)⟩
          · exact Or.inl (mark3_ne _ _ _ _ hc)
      | retrieveRaise fw =>
        cases hdry : d.dry_run with
        | true => simp
        | false =>
          simp only [era5MarkSave]
          by_cases hc : c = c0
          · subst hc
            exact Or.inr ⟨hcell, Or.inl (mark3_self _ _ _)⟩
          · exact Or.inl (mark3_ne _ _ _ _ hc)
    · simp [hcell]

/-- One ICON loop iteration writes only a 0 cell and writes 1. -/
theorem iconStep_cell (d : Icon) (oracle : Int × String × String → IconOutcome)
    (st : IconState) (u : (Nat × Int) × (Nat × String) × (Nat × String)) (c : Coord3) :
    (iconStep d oracle st u).checkpoint c = st.checkpoint c ∨
      (st.checkpoint c = 0 ∧
        ((iconStep d oracle st u).checkpoint c = 0 ∨
          (iconStep d oracle st u).checkpoint c = 1)) := by
  rcases u with ⟨⟨yi, y⟩, ⟨mi, m⟩, vi, v⟩
  by_cases hcell : st.checkpoint (yi, mi, vi) = 0
  · unfold iconStep
    simp only [hcell, ne_eq, not_true_eq_false, if_false]
    have hframe := iconDownloadFile_frame d oracle
      { st with attempts := st.attempts ++ [(y, m, v)] } y m v
    by_cases hst : (iconDownloadFile d oracle
        { st with attempts := st.attempts ++ [(y, m, v)] } y m v).2 = 1
    · rw [if_pos hst]
      by_cases hc : c = (yi, mi, vi)
      · subst hc
        exact Or.inr ⟨hcell, Or.inr (mark3_self _ _ _)⟩
      · left
        show mark3 (iconDownloadFile d oracle
          { st with attempts := st.attempts ++ [(y, m, v)] } y m v).1.checkpoint
          (yi, mi, vi) 1 c = st.checkpoint c
        rw [mark3_ne _ _ _ _ hc, hframe.1]
    · rw [if_neg hst]
      left
      rw [hframe.1]
  · left
    simp [iconStep, hcell]

/-- C10. During any single run of each orchestrator loop, starting from a
checkpoint whose cells are all 0 or 1, every intermediate state (foldl
over any prefix of the unit list) keeps every cell in 0/1, never
decreases a cell, and never overwrites a 1 with a 0. -/
theorem c10_checkpoint_monotone :
    (∀ (oracle : String → String → EntsoeApiResult) (years zones : List String)
        (st : EntsoeState) (n : Nat),
        (∀ c, st.checkpoint c = 0 ∨ st.checkpoint c = 1) →
        (∀ c, (((entsoeUnits years zones).take n).foldl (entsoeStep oracle) st).checkpoint c = 0 ∨
          (((entsoeUnits years zones).take n).foldl (entsoeStep oracle) st).checkpoint c = 1) ∧
        (∀ c, st.checkpoint c ≤
          (((entsoeUnits years zones).take n).foldl (entsoeStep oracle) st).checkpoint c) ∧
        (∀ c, st.checkpoint c = 1 →
          (((entsoeUnits years zones).take n).foldl (entsoeStep oracle) st).checkpoint c = 1)) ∧
    (∀ (d : Era5) (oracle : Int × String × LevelType → Era5Outcome)
        (st : Era5State) (n : Nat),
        (∀ c, st.checkpoint c = 0 ∨ st.checkpoint c = 1) →
        (∀ c, (((era5UnitList d).take n).foldl (era5Step d oracle) st).checkpoint c = 0 ∨
          (((era5UnitList d).take n).foldl (era5Step d oracle) st).checkpoint c = 1) ∧
        (∀ c, st.checkpoint c ≤
          (((era5UnitList d).take n).foldl (era5Step d oracle) st).checkpoint c) ∧
        (∀ c, st.checkpoint c = 1 →
          (((era5UnitList d).take n).foldl (era5Step d oracle) st).checkpoint c = 1)) ∧
    (∀ (d : Icon) (oracle : Int × String × String → IconOutcome)
        (st : IconState) (n : Nat),
        (∀ c, st.checkpoint c = 0 ∨ st.checkpoint c = 1) →
        (∀ c, (((iconUnitList d).take n).foldl (iconStep d oracle) st).checkpoint c = 0 ∨
          (((iconUnitList d).take n).foldl (iconStep d oracle) st).checkpoint c = 1) ∧
        (∀ c, st.checkpoint c ≤
          (((iconUnitList d).take n).foldl (iconStep d oracle) st).checkpoint c) ∧
        (∀ c, st.checkpoint c = 1 →
          (((iconUnitList d).take n).foldl (iconStep d oracle) st).checkpoint c = 1)) := by
  refine ⟨?_, ?_, ?_⟩
  · intro oracle years zones st n h01
    have h := foldl_cell_consequences (entsoeStep oracle) (fun s => s.checkpoint)
      (fun st u c => entsoeStep_cell oracle st u c) ((entsoeUnits years zones).take n) st
    exact ⟨h.1 h01, h.2.1, h.2.2⟩
  · intro d oracle st n h01
    have h := foldl_cell_consequences (era5Step d oracle) (fun s => s.checkpoint)
      (fun st u c => era5Step_cell d oracle st u c) ((era5UnitList d).take n) st
    exact ⟨h.1 h01, h.2.1, h.2.2⟩
  · intro d oracle st n h01
    have h := foldl_cell_consequences (iconStep d oracle) (fun s => s.checkpoint)
      (fun st u c => iconStep_cell d oracle st u c) ((iconUnitList d).take n) st
    exact ⟨h.1 h01, h.2.1, h.2.2⟩

/-- Witness for C10: on the one-unit ENTSO-E grid with a fresh checkpoint,
after one iteration the cell is still in 0/1 and did not decrease. -/
theorem c10_witness :
    (∀ c, entsoeFresh.checkpoint c = 0 ∨ entsoeFresh.checkpoint c = 1) ∧
    ((((entsoeUnits ["2020"] ["Z"]).take 1).foldl
        (entsoeStep (fun _ _ => EntsoeApiResult.records)) entsoeFresh).checkpoint (0, 0) = 0 ∨
      (((entsoeUnits ["2020"] ["Z"]).take 1).foldl
        (entsoeStep (fun _ _ => EntsoeApiResult.records)) entsoeFresh).checkpoint (0, 0) = 1) ∧
    entsoeFresh.checkpoint (0, 0) ≤
      (((entsoeUnits ["2020"] ["Z"]).take 1).foldl
        (entsoeStep (fun _ _ => EntsoeApiResult.records)) entsoeFresh).checkpoint (0, 0) := by
  have h01 : ∀ c, entsoeFresh.checkpoint c = 0 ∨ entsoeFresh.checkpoint c = 1 :=
    fun _ => Or.inl rfl
  have h := c10_checkpoint_monotone.1 (fun _ _ => EntsoeApiResult.records)
    ["2020"] ["Z"] entsoeFresh 1 h01
  exact ⟨h01, h.1 (0, 0), h.2.1 (0, 0)⟩

/-! ## C2: resumed second run -/

/-- A nonzero cell survives any number of loop iterations. -/
theorem foldl_preserves_nonzero {σ υ γ : Type} (step : σ → υ → σ) (cp : σ → γ → Nat)
    (hstep : ∀ st u c, cp (step st u) c = cp st c ∨
      (cp st c = 0 ∧ (cp (step st u) c = 0 ∨ cp (step st u) c = 1)))
    (us : List υ) (st : σ) (c : γ) (hne : cp st c ≠ 0) :
    cp (us.foldl step st) c ≠ 0 := by
  rcases foldl_cell_evolution step cp hstep us st c with h | ⟨h0, _⟩
  · rw [h]; exact hne
  · exact absurd h0 hne

/-- The checkpoint cell addressed by an ENTSO-E unit descriptor. -/
def entsoeCoord (u : (Nat × String) × (Nat × String)) : Coord2 := (u.1.1, u.2.1)

/-- When every unit query succeeds, a step never turns the run fatal. -/
theorem entsoeStep_fatal_none (oracle : String → String → EntsoeApiResult)
    (st : EntsoeState) (u : (Nat × String) × (Nat × String))
    (Hok : ∀ z y, dump_to_csv (oracle z y) = Except.ok 1)
    (hf : st.fatal = none) : (entsoeStep oracle st u).fatal = none := by
  rcases u with ⟨⟨yi, y⟩, zi, z⟩
  by_cases hcell : st.checkpoint (yi, zi) = 0
  · simp [entsoeStep, hf, hcell, Hok z y]
  · simp [entsoeStep, hf, hcell]

/-- When every unit query succeeds, every unit visited by the loop has a
nonzero cell afterwards. -/
theorem entsoeFoldl_marks (oracle : String → String → EntsoeApiResult)
    (Hok : ∀ z y, dump_to_csv (oracle z y) = Except.ok 1) :
    ∀ (us : List ((Nat × String) × (Nat × String))) (st : EntsoeState),
      st.fatal = none → ∀ u ∈ us,
      (us.foldl (entsoeStep oracle) st).checkpoint (entsoeCoord u) ≠ 0 := by
  intro us
  induction us with
  | nil => intro st _ u hu; exact absurd hu (List.not_mem_nil u)
  | cons u0 rest ih =>
    intro st hf u hu
    rw [List.foldl_cons]
    rcases List.mem_cons.mp hu with h | h
    · subst h
      apply foldl_preserves_nonzero (entsoeStep oracle) (fun s => s.checkpoint)
        (fun a b c => entsoeStep_cell oracle a b c) rest
      rcases u with ⟨⟨yi, y⟩, zi, z⟩
      by_cases hcell : st.checkpoint (yi, zi) = 0
      · have hone : (entsoeStep oracle st ((yi, y), (zi, z))).checkpoint (yi, zi) = 1 := by
          simp [entsoeStep, hf, hcell, Hok z y, mark2_self]
        show (entsoeStep oracle st ((yi, y), (zi, z))).checkpoint (yi, zi) ≠ 0
        rw [hone]
        exact one_ne_zero
      · show (entsoeStep oracle st ((yi, y), (zi, z))).checkpoint (yi, zi) ≠ 0
        rcases entsoeStep_cell oracle st ((yi, y), (zi, z)) (yi, zi) with hh | ⟨h0, _⟩
        · rw [hh]; exact hcell
        · exact absurd h0 hcell
    · exact ih (entsoeStep oracle st u0) (entsoeStep_fatal_none oracle st u0 Hok hf) u h

/-- A run over units whose cells are all already nonzero changes
nothing. -/
theorem entsoeFoldl_id (oracle : String → String → EntsoeApiResult) :
    ∀ (us : List ((Nat × String) × (Nat × String))) (st : EntsoeState),
      (∀ u ∈ us, st.checkpoint (entsoeCoord u) ≠ 0) →
      us.foldl (entsoeStep oracle) st = st := by
  intro us
  induction us with
  | nil => intro st _; rfl
  | cons u0 rest ih =>
    intro st hall
    rw [List.foldl_cons]
    have hstep : entsoeStep oracle st u0 = st := by
      have hne := hall _ (List.mem_cons_self u0 rest)
      rcases u0 with ⟨⟨yi, y⟩, zi, z⟩
      simp only [entsoeCoord] at hne
      cases hf : st.fatal with
      | some e => simp [entsoeStep, hf]
      | none => simp [entsoeStep, hf, hne]
    rw [hstep]
    exact ih st fun u hu => hall u (List.mem_cons_of_mem _ hu)

/-- Every step keeps the pickled copy equal to the in-memory checkpoint. -/
theorem entsoeStep_sync (oracle : String → String → EntsoeApiResult)
    (st : EntsoeState) (u : (Nat × String) × (Nat × String))
    (h : st.disk = st.checkpoint) :
    (entsoeStep oracle st u).disk = (entsoeStep oracle st u).checkpoint := by
  rcases u with ⟨⟨yi, y⟩, zi, z⟩
  cases hf : st.fatal with
  | some e => simp [entsoeStep, hf, h]
  | none =>
    by_cases hcell : st.checkpoint (yi, zi) = 0
    · cases hdump : dump_to_csv (oracle z y) with
      | error e => simp [entsoeStep, hf, hcell, hdump, h]
      | ok s => simp [entsoeStep, hf, hcell, hdump]
    · simp [entsoeStep, hf, hcell, h]

/-- Pickled copy and checkpoint agree at the end of a run that started in
agreement. -/
theorem entsoeFoldl_sync (oracle : String → String → EntsoeApiResult) :
    ∀ (us : List ((Nat × String) × (Nat × String))) (st : EntsoeState),
      st.disk = st.checkpoint →
      (us.foldl (entsoeStep oracle) st).disk = (us.foldl (entsoeStep oracle) st).checkpoint := by
  intro us
  induction us with
  | nil => intro st h; exact h
  | cons u0 rest ih =>
    intro st h
    rw [List.foldl_cons]
    exact ih _ (entsoeStep_sync oracle st u0 h)

/-- A property preserved by each iteration holds after the whole loop. -/
theorem foldl_preserves {σ υ : Type} (step : σ → υ → σ) (P : σ → Prop)
    (hstep : ∀ st u, P st → P (step st u)) :
    ∀ (us : List υ) (st : σ), P st → P (us.foldl step st) := by
  intro us
  induction us with
  | nil => intro st h; exact h
  | cons u0 rest ih =>
    intro st h
    rw [List.foldl_cons]
    exact ih _ (hstep st u0 h)

/-- The checkpoint cell addressed by an ICON unit descriptor. -/
def iconCoord (u : (Nat × Int) × (Nat × String) × (Nat × String)) : Coord3 :=
  (u.1.1, u.2.1.1, u.2.2.1)

/-- A unit whose fetch succeeds reports status 1 (as do the already-there
and dry-run branches). -/
theorem iconDownloadFile_status_ok (d : Icon) (oracle : Int × String × String → IconOutcome)
    (st : IconState) (y : Int) (m v : String)
    (Hok : oracle (y, m, v) = IconOutcome.ok) :
    (iconDownloadFile d oracle st y m v).2 = 1 := by
  unfold iconDownloadFile
  by_cases h1 : iconFileName y m v ∈ st.fs
  · simp [h1]
  · cases h2 : d.dry_run with
    | true => simp [h1, h2]
    | false => simp [h1, h2, Hok]

/-- When every fetch succeeds, every unit visited by the ICON loop has a
nonzero cell afterwards. -/
theorem iconFoldl_marks (d : Icon) (oracle : Int × String × String → IconOutcome)
    (Hok : ∀ u, oracle u = IconOutcome.ok) :
    ∀ (us : List ((Nat × Int) × (Nat × String) × (Nat × String))) (st : IconState),
      ∀ u ∈ us, (us.foldl (iconStep d oracle) st).checkpoint (iconCoord u) ≠ 0 := by
  intro us
  induction us with
  | nil => intro st u hu; exact absurd hu (List.not_mem_nil u)
  | cons u0 rest ih =>
    intro st u hu
    rw [List.foldl_cons]
    rcases List.mem_cons.mp hu with h | h
    · subst h
      apply foldl_preserves_nonzero (iconStep d oracle) (fun s => s.checkpoint)
        (fun a b c => iconStep_cell d oracle a b c) rest
      rcases u with ⟨⟨yi, y⟩, ⟨mi, m⟩, vi, v⟩
      show (iconStep d oracle st ((yi, y), ((mi, m), (vi, v)))).checkpoint (yi, mi, vi) ≠ 0
      by_cases hcell : st.checkpoint (yi, mi, vi) = 0
      · have hsts := iconDownloadFile_status_ok d oracle
          { st with attempts := st.attempts ++ [(y, m, v)] } y m v (Hok (y, m, v))
        have hone : (iconStep d oracle st ((yi, y), ((mi, m), (vi, v)))).checkpoint
            (yi, mi, vi) = 1 := by
          unfold iconStep
          simp only [hcell, ne_eq, not_true_eq_false, if_false]
          rw [if_pos hsts]
          exact mark3_self _ _ _
        rw [hone]
        exact one_ne_zero
      · rcases iconStep_cell d oracle st ((yi, y), ((mi, m), (vi, v))) (yi, mi, vi) with
          hh | ⟨h0, _⟩
        · rw [hh]; exact hcell
        · exact absurd h0 hcell
    · exact ih (iconStep d oracle st u0) u h

/-- An ICON run over units whose cells are all already nonzero changes
nothing. -/
theorem iconFoldl_id (d : Icon) (oracle : Int × String × String → IconOutcome) :
    ∀ (us : List ((Nat × Int) × (Nat × String) × (Nat × String))) (st : IconState),
      (∀ u ∈ us, st.checkpoint (iconCoord u) ≠ 0) →
      us.foldl (iconStep d oracle) st = st := by
  intro us
  induction us with
  | nil => intro st _; rfl
  | cons u0 rest ih =>
    intro st hall
    rw [List.foldl_cons]
    have hstep : iconStep d oracle st u0 = st := by
      have hne := hall _ (List.mem_cons_self u0 rest)
      rcases u0 with ⟨⟨yi, y⟩, ⟨mi, m⟩, vi, v⟩
      simp only [iconCoord] at hne
      simp [iconStep, hne]
    rw [hstep]
    exact ih st fun u hu => hall u (List.mem_cons_of_mem _ hu)

/-- Every ICON step keeps the pickled copy equal to the checkpoint. -/
theorem iconStep_sync (d : Icon) (oracle : Int × String × String → IconOutcome)
    (st : IconState) (u : (Nat × Int) × (Nat × String) × (Nat × String))
    (h : st.disk = st.checkpoint) :
    (iconStep d oracle st u).disk = (iconStep d oracle st u).checkpoint := by
  rcases u with ⟨⟨yi, y⟩, ⟨mi, m⟩, vi, v⟩
  by_cases hcell : st.checkpoint (yi, mi, vi) = 0
  · unfold iconStep
    simp only [hcell, ne_eq, not_true_eq_false, if_false]
    have hframe := iconDownloadFile_frame d oracle
      { st with attempts := st.attempts ++ [(y, m, v)] } y m v
    by_cases hst : (iconDownloadFile d oracle
        { st with attempts := st.attempts ++ [(y, m, v)] } y m v).2 = 1
    · rw [if_pos hst]
    · rw [if_neg hst]
      rw [hframe.2.1, hframe.1]
      exact h
  · simp [iconStep, hcell, h]

/-- The checkpoint cell addressed by an ERA5 unit descriptor, for a given
checkpoint dimensionality. -/
def era5UCell (d : Era5) (n3 : Bool) (u : Int × String × LevelType) : Coord3 :=
  era5Cell n3 (d.years.indexOf u.1) (d.months.indexOf u.2.1) (era5CpIdx d u.2.2)

/-- The checkpoint dimensionality never changes during a run. -/
theorem era5Step_ndim3 (d : Era5) (oracle : Int × String × LevelType → Era5Outcome)
    (st : Era5State) (u : Int × String × LevelType) :
    (era5Step d oracle st u).ndim3 = st.ndim3 := by
  rcases u with ⟨y, m, lt⟩
  unfold era5Step era5DownloadVariables
  cases hv : (era5VarsFor d lt).isEmpty with
  | true => simp [hv]
  | false =>
    simp only [hv, Bool.false_eq_true, if_false]
    by_cases hcell : st.checkpoint
        (era5Cell st.ndim3 (d.years.indexOf y) (d.months.indexOf m) (era5CpIdx d lt)) = 0
    · simp only [hcell, ne_eq, not_true_eq_false, if_false]
      cases horacle : oracle (y, m, lt) with
      | buildRaise => simp [era5MarkSave]
      | retrieveOk => cases hdry : d.dry_run <;> simp [era5MarkSave]
      | retrieveRaise fw => cases hdry : d.dry_run <;> simp [era5MarkSave]
    · simp [hcell]

/-- Every ERA5 step keeps the pickled copy equal to the checkpoint. -/
theorem era5Step_sync (d : Era5) (oracle : Int × String × LevelType → Era5Outcome)
    (st : Era5State) (u : Int × String × LevelType) (h : st.disk = st.checkpoint) :
    (era5Step d oracle st u).disk = (era5Step d oracle st u).checkpoint := by
  rcases u with ⟨y, m, lt⟩
  unfold era5Step era5DownloadVariables
  cases hv : (era5VarsFor d lt).isEmpty with
  | true => simp [hv, h]
  | false =>
    simp only [hv, Bool.false_eq_true, if_false]
    by_cases hcell : st.checkpoint
        (era5Cell st.ndim3 (d.years.indexOf y) (d.months.indexOf m) (era5CpIdx d lt)) = 0
    · simp only [hcell, ne_eq, not_true_eq_false, if_false]
      cases horacle : oracle (y, m, lt) with
      | buildRaise => simp [era5MarkSave]
      | retrieveOk => cases hdry : d.dry_run <;> simp [era5MarkSave, h]
      | retrieveRaise fw => cases hdry : d.dry_run <;> simp [era5MarkSave, h]
    · simp [hcell, h]

/-- An ERA5 step at an inert unit (no variables for the level type, cell
already nonzero, or dry run with a successful oracle) changes nothing. -/
theorem era5Step_inert (d : Era5) (oracle : Int × String × LevelType → Era5Outcome)
    (st : Era5State) (u : Int × String × LevelType)
    (Hok : oracle u = Era5Outcome.retrieveOk)
    (hinert : (era5VarsFor d u.2.2).isEmpty = true ∨
      st.checkpoint (era5UCell d st.ndim3 u) ≠ 0 ∨ d.dry_run = true) :
    era5Step d oracle st u = st := by
  rcases u with ⟨y, m, lt⟩
  unfold era5Step era5DownloadVariables
  rcases hinert with hv | hcell | hdry
  · simp [hv]
  · cases hv : (era5VarsFor d lt).isEmpty with
    | true => simp [hv]
    | false =>
      simp only [era5UCell] at hcell
      simp [hv, hcell]
  · cases hv : (era5VarsFor d lt).isEmpty with
    | true => simp [hv]
    | false =>
      simp only [hv, Bool.false_eq_true, if_false]
      by_cases hcell : st.checkpoint
          (era5Cell st.ndim3 (d.years.indexOf y) (d.months.indexOf m) (era5CpIdx d lt)) = 0
      · simp [hcell, Hok, hdry]
      · simp [hcell]

/-- A non-dry ERA5 step at a pending unit with variables marks its cell 1
when the retrieval succeeds. -/
theorem era5Step_marks (d : Era5) (oracle : Int × String × LevelType → Era5Outcome)
    (st : Era5State) (u : Int × String × LevelType)
    (Hok : oracle u = Era5Outcome.retrieveOk) (hdry : d.dry_run = false)
    (hv : (era5VarsFor d u.2.2).isEmpty = false)
    (hcell : st.checkpoint (era5UCell d st.ndim3 u) = 0) :
    (era5Step d oracle st u).checkpoint (era5UCell d st.ndim3 u) = 1 := by
  rcases u with ⟨y, m, lt⟩
  simp only [era5UCell] at hcell ⊢
  unfold era5Step era5DownloadVariables
  simp only [hv, Bool.false_eq_true, if_false, hcell, ne_eq, not_true_eq_false, Hok, hdry,
    era5MarkSave]
  exact mark3_self _ _ _

/-- When every retrieval succeeds and the run is not dry, every unit
visited by the ERA5 loop either has no variables for its level type or a
nonzero cell afterwards. -/
theorem era5Foldl_marks (d : Era5) (oracle : Int × String × LevelType → Era5Outcome)
    (Hok : ∀ u, oracle u = Era5Outcome.retrieveOk) (hdry : d.dry_run = false) :
    ∀ (us : List (Int × String × LevelType)) (st : Era5State),
      ∀ u ∈ us, (era5VarsFor d u.2.2).isEmpty = true ∨
        (us.foldl (era5Step d oracle) st).checkpoint (era5UCell d st.ndim3 u) ≠ 0 := by
  intro us
  induction us with
  | nil => intro st u hu; exact absurd hu (List.not_mem_nil u)
  | cons u0 rest ih =>
    intro st u hu
    rw [List.foldl_cons]
    rcases List.mem_cons.mp hu with h | h
    · subst h
      cases hv : (era5VarsFor d u.2.2).isEmpty with
      | true => exact Or.inl rfl
      | false =>
        right
        apply foldl_preserves_nonzero (era5Step d oracle) (fun s => s.checkpoint)
          (fun a b c => era5Step_cell d oracle a b c) rest
        by_cases hcell : st.checkpoint (era5UCell d st.ndim3 u) = 0
        · rw [era5Step_marks d oracle st u (Hok u) hdry hv hcell]
          exact one_ne_zero
        · rcases era5Step_cell d oracle st u (era5UCell d st.ndim3 u) with hh | ⟨h0, _⟩
          · rw [hh]; exact hcell
          · exact absurd h0 hcell
    · rcases ih (era5Step d oracle st u0) u h with hv | hne
      · exact Or.inl hv
      · right
        rw [era5Step_ndim3 d oracle st u0] at hne
        exact hne

/-- An ERA5 run over inert units changes nothing. -/
theorem era5Foldl_inert_id (d : Era5) (oracle : Int × String × LevelType → Era5Outcome)
    (Hok : ∀ u, oracle u = Era5Outcome.retrieveOk) :
    ∀ (us : List (Int × String × LevelType)) (st : Era5State),
      (∀ u ∈ us, (era5VarsFor d u.2.2).isEmpty = true ∨
        st.checkpoint (era5UCell d st.ndim3 u) ≠ 0 ∨ d.dry_run = true) →
      us.foldl (era5Step d oracle) st = st := by
  intro us
  induction us with
  | nil => intro st _; rfl
  | cons u0 rest ih =>
    intro st hall
    rw [List.foldl_cons]
    have hstep : era5Step d oracle st u0 = st :=
      era5Step_inert d oracle st u0 (Hok u0) (hall _ (List.mem_cons_self u0 rest))
    rw [hstep]
    exact ih st fun u hu => hall u (List.mem_cons_of_mem _ hu)

/-- C2 counterexample: one ENTSO-E unit whose query yields status 0 (no
data returned). The first run records the 0 and pickles it; a second run
resumed from the pickled checkpoint re-attempts that same unit, so the
second invocation performs one unit download, not zero. -/
theorem c2_counterexample :
    (dump_all_to_csv (fun _ _ => EntsoeApiResult.queryObjectReturned) ["2020"] ["Z"]
      { checkpoint := (dump_all_to_csv (fun _ _ => EntsoeApiResult.queryObjectReturned)
          ["2020"] ["Z"] entsoeFresh).disk,
        disk := (dump_all_to_csv (fun _ _ => EntsoeApiResult.queryObjectReturned)
          ["2020"] ["Z"] entsoeFresh).disk,
        saves := 0, attempts := [], fatal := none }).attempts = [("Z", "2020")] := by
  decide

/-- C2 (amended). When every unit download of the first run succeeds
(status 1), a second invocation resumed from the pickled checkpoint
changes nothing: ENTSO-E and ICON invoke zero unit downloaders, and ERA5
performs zero retrieve calls. A unit that failed in the first run is
re-attempted by the second run (see the counterexample). -/
theorem c2_resume_idempotent :
    (∀ (oracle : String → String → EntsoeApiResult) (years zones : List String)
        (st : EntsoeState),
        (∀ z y, dump_to_csv (oracle z y) = Except.ok 1) →
        st.fatal = none → st.disk = st.checkpoint →
        dump_all_to_csv oracle years zones
            { checkpoint := (dump_all_to_csv oracle years zones st).disk,
              disk := (dump_all_to_csv oracle years zones st).disk,
              saves := 0, attempts := [], fatal := none } =
          { checkpoint := (dump_all_to_csv oracle years zones st).disk,
            disk := (dump_all_to_csv oracle years zones st).disk,
            saves := 0, attempts := [], fatal := none } ∧
        (dump_all_to_csv oracle years zones
            { checkpoint := (dump_all_to_csv oracle years zones st).disk,
              disk := (dump_all_to_csv oracle years zones st).disk,
              saves := 0, attempts := [], fatal := none }).attempts = []) ∧
    (∀ (d : Era5) (oracle : Int × String × LevelType → Era5Outcome) (st : Era5State),
        (∀ u, oracle u = Era5Outcome.retrieveOk) → st.disk = st.checkpoint →
        era5DownloadData d oracle
            { checkpoint := (era5DownloadData d oracle st).disk,
              ndim3 := (era5DownloadData d oracle st).ndim3,
              disk := (era5DownloadData d oracle st).disk,
              saves := 0, retrieves := 0, fs := (era5DownloadData d oracle st).fs } =
          { checkpoint := (era5DownloadData d oracle st).disk,
            ndim3 := (era5DownloadData d oracle st).ndim3,
            disk := (era5DownloadData d oracle st).disk,
            saves := 0, retrieves := 0, fs := (era5DownloadData d oracle st).fs } ∧
        (era5DownloadData d oracle
            { checkpoint := (era5DownloadData d oracle st).disk,
              ndim3 := (era5DownloadData d oracle st).ndim3,
              disk := (era5DownloadData d oracle st).disk,
              saves := 0, retrieves := 0,
              fs := (era5DownloadData d oracle st).fs }).retrieves = 0) ∧
    (∀ (d : Icon) (oracle : Int × String × String → IconOutcome) (st : IconState),
        (∀ u, oracle u = IconOutcome.ok) → st.disk = st.checkpoint →
        iconDownloadData d oracle
            { checkpoint := (iconDownloadData d oracle st).disk,
              disk := (iconDownloadData d oracle st).disk,
              saves := 0, fs := (iconDownloadData d oracle st).fs, attempts := [] } =
          { checkpoint := (iconDownloadData d oracle st).disk,
            disk := (iconDownloadData d oracle st).disk,
            saves := 0, fs := (iconDownloadData d oracle st).fs, attempts := [] } ∧
        (iconDownloadData d oracle
            { checkpoint := (iconDownloadData d oracle st).disk,
              disk := (iconDownloadData d oracle st).disk,
              saves := 0, fs := (iconDownloadData d oracle st).fs,
              attempts := [] }).attempts = []) := by
  refine ⟨?_, ?_, ?_⟩
  · intro oracle years zones st Hok hf hsync
    have hsync2 : (dump_all_to_csv oracle years zones st).disk =
        (dump_all_to_csv oracle years zones st).checkpoint :=
      entsoeFoldl_sync oracle (entsoeUnits years zones) st hsync
    have hmarks := entsoeFoldl_marks oracle Hok (entsoeUnits years zones) st hf
    have hid : dump_all_to_csv oracle years zones
        { checkpoint := (dump_all_to_csv oracle years zones st).disk,
          disk := (dump_all_to_csv oracle years zones st).disk,
          saves := 0, attempts := [], fatal := none } =
        { checkpoint := (dump_all_to_csv oracle years zones st).disk,
          disk := (dump_all_to_csv oracle years zones st).disk,
          saves := 0, attempts := [], fatal := none } := by
      unfold dump_all_to_csv
      apply entsoeFoldl_id
      intro u hu
      show (dump_all_to_csv oracle years zones st).disk (entsoeCoord u) ≠ 0
      rw [hsync2]
      exact hmarks u hu
    exact ⟨hid, by rw [hid]⟩
  · intro d oracle st Hok hsync
    have hndim : (era5DownloadData d oracle st).ndim3 = st.ndim3 :=
      foldl_preserves (era5Step d oracle) (fun s => s.ndim3 = st.ndim3)
        (fun a u ha => by
          show (era5Step d oracle a u).ndim3 = st.ndim3
          rw [era5Step_ndim3]
          exact ha) (era5UnitList d) st rfl
    have hsync2 : (era5DownloadData d oracle st).disk =
        (era5DownloadData d oracle st).checkpoint :=
      foldl_preserves (era5Step d oracle) (fun s => s.disk = s.checkpoint)
        (fun a u ha => era5Step_sync d oracle a u ha) (era5UnitList d) st hsync
    have hid : era5DownloadData d oracle
        { checkpoint := (era5DownloadData d oracle st).disk,
          ndim3 := (era5DownloadData d oracle st).ndim3,
          disk := (era5DownloadData d oracle st).disk,
          saves := 0, retrieves := 0, fs := (era5DownloadData d oracle st).fs } =
        { checkpoint := (era5DownloadData d oracle st).disk,
          ndim3 := (era5DownloadData d oracle st).ndim3,
          disk := (era5DownloadData d oracle st).disk,
          saves := 0, retrieves := 0, fs := (era5DownloadData d oracle st).fs } := by
      unfold era5DownloadData
      apply era5Foldl_inert_id d oracle Hok
      intro u hu
      cases hdry : d.dry_run with
      | true => exact Or.inr (Or.inr rfl)
      | false =>
        rcases era5Foldl_marks d oracle Hok hdry (era5UnitList d) st u hu with hv | hne
        · exact Or.inl hv
        · refine Or.inr (Or.inl ?_)
          show (era5DownloadData d oracle st).disk
            (era5UCell d (era5DownloadData d oracle st).ndim3 u) ≠ 0
          rw [hsync2, hndim]
          exact hne
    exact ⟨hid, by rw [hid]⟩
  · intro d oracle st Hok hsync
    have hsync2 : (iconDownloadData d oracle st).disk =
        (iconDownloadData d oracle st).checkpoint :=
      foldl_preserves (iconStep d oracle) (fun s => s.disk = s.checkpoint)
        (fun a u ha => iconStep_sync d oracle a u ha) (iconUnitList d) st hsync
    have hmarks := iconFoldl_marks d oracle Hok (iconUnitList d) st
    have hid : iconDownloadData d oracle
        { checkpoint := (iconDownloadData d oracle st).disk,
          disk := (iconDownloadData d oracle st).disk,
          saves := 0, fs := (iconDownloadData d oracle st).fs, attempts := [] } =
        { checkpoint := (iconDownloadData d oracle st).disk,
          disk := (iconDownloadData d oracle st).disk,
          saves := 0, fs := (iconDownloadData d oracle st).fs, attempts := [] } := by
      unfold iconDownloadData
      apply iconFoldl_id
      intro u hu
      show (iconDownloadData d oracle st).disk (iconCoord u) ≠ 0
      rw [hsync2]
      exact hmarks u hu
    exact ⟨hid, by rw [hid]⟩

/-- Witness for C2: with a provider that always returns records, the
one-unit ENTSO-E grid run a second time from the pickled checkpoint
performs zero unit downloads. -/
theorem c2_witness :
    (∀ (z y : String),
      dump_to_csv ((fun (_ _ : String) => EntsoeApiResult.records) z y) = Except.ok 1) ∧
    (dump_all_to_csv (fun _ _ => EntsoeApiResult.records) ["2020"] ["Z"]
      { checkpoint := (dump_all_to_csv (fun _ _ => EntsoeApiResult.records)
          ["2020"] ["Z"] entsoeFresh).disk,
        disk := (dump_all_to_csv (fun _ _ => EntsoeApiResult.records)
          ["2020"] ["Z"] entsoeFresh).disk,
        saves := 0, attempts := [], fatal := none }).attempts = [] := by
  refine ⟨fun _ _ => rfl, ?_⟩
  exact (c2_resume_idempotent.1 (fun _ _ => EntsoeApiResult.records) ["2020"] ["Z"]
    entsoeFresh (fun _ _ => rfl) rfl rfl).2

end RBC
